import Mathlib

/-!
Formal verification of the HTML-to-PPT layout engine
(`test/ppt_test/html2pptx.py`, `test/ppt_test/convert_to_pdf.py`,
`test/ppt_test/layout_analyzer.py`).

The Python code is shallowly embedded: Python `dict`s become insertion-ordered
association lists with `dictSet`/`dictUpdate` mirroring `d[k] = v` and
`d.update(...)`; Python floats become `ℚ`; `try/except` blocks become `Option`
with the handler value as default.  String primitives (`strip`, `lower`,
`split`, `in`, `endswith`) are re-implemented by structural recursion over
`List Char` so that concrete runs reduce inside the kernel.  Each embedded
definition keeps the name of the Python function or method it translates.
-/

set_option maxRecDepth 8000
set_option linter.unusedVariables false

/-! ## Python string primitives -/

/-- Python `str.strip()` whitespace set (ASCII part). -/
def isSpaceChar (c : Char) : Bool :=
  c == ' ' || c == '\t' || c == '\n' || c == '\x0d' || c == '\x0b' || c == '\x0c'

def pyStripCL (cs : List Char) : List Char :=
  ((cs.dropWhile isSpaceChar).reverse.dropWhile isSpaceChar).reverse

/-- Python `s.strip()`. -/
def pyStrip (s : String) : String := ⟨pyStripCL s.data⟩

def lowerChar (c : Char) : Char :=
  if 65 ≤ c.toNat ∧ c.toNat ≤ 90 then Char.ofNat (c.toNat + 32) else c

/-- Python `s.lower()` (ASCII range; the CSS tokens fed to it are ASCII). -/
def pyLower (s : String) : String := ⟨s.data.map lowerChar⟩

/-- Python `s.endswith(pat)`. -/
def strEndsWith (s pat : String) : Bool := pat.data.isSuffixOf s.data

/-- Python `s.startswith(pat)`. -/
def strStartsWith (s pat : String) : Bool := pat.data.isPrefixOf s.data

def isInfixCL (pat : List Char) : List Char → Bool
  | [] => pat.isEmpty
  | c :: rest => pat.isPrefixOf (c :: rest) || isInfixCL pat rest

/-- Python `pat in s` on strings. -/
def strContains (s pat : String) : Bool := isInfixCL pat.data s.data

def splitOnCharCL (sep : Char) : List Char → List (List Char)
  | [] => [[]]
  | c :: rest =>
    if c == sep then [] :: splitOnCharCL sep rest
    else
      match splitOnCharCL sep rest with
      | [] => [[c]]
      | g :: gs => (c :: g) :: gs

/-- Python `s.split(sep)` for a one-character separator. -/
def pySplitChar (s : String) (sep : Char) : List String :=
  (splitOnCharCL sep s.data).map (fun g => ⟨g⟩)

/-- Python `s.split(sep, 1)` given that `sep in s` holds: the part before the
first separator and the part after it. -/
def splitFirst (sep : Char) (cs : List Char) : List Char × List Char :=
  (cs.takeWhile (fun c => ¬ c == sep), (cs.dropWhile (fun c => ¬ c == sep)).tail)

def wsSplitAux : List Char → List Char → List (List Char)
  | [], acc => if acc.isEmpty then [] else [acc.reverse]
  | c :: rest, acc =>
    if isSpaceChar c then
      if acc.isEmpty then wsSplitAux rest [] else acc.reverse :: wsSplitAux rest []
    else wsSplitAux rest (c :: acc)

/-- Python `s.split()`: split on whitespace runs, dropping empty parts. -/
def pySplitWs (s : String) : List String := (wsSplitAux s.data []).map (fun g => ⟨g⟩)

/-! ## Python dict semantics

A Python `dict` preserves insertion order; `d[k] = v` overwrites in place when
`k` is present (keys of a dict are unique, so replacing the first occurrence
is exact) and appends otherwise.  `StyleMap` is a property-name → value map,
`Stylesheet` a selector → `StyleMap` map as produced by
`CSSProcessor.parse_css_file`.
-/

abbrev StyleMap := List (String × String)

abbrev Stylesheet := List (String × StyleMap)

/-- `d[k] = v` on an insertion-ordered dict. -/
def dictSet : StyleMap → String → String → StyleMap
  | [], k, v => [(k, v)]
  | p :: m, k, v => if p.1 = k then (k, v) :: m else p :: dictSet m k v

/-- `computed.update(style)`: apply every binding of `s` over `m` in order. -/
def dictUpdate (m : StyleMap) (s : StyleMap) : StyleMap :=
  s.foldl (fun acc p => dictSet acc p.1 p.2) m

/-- `d.get(k)` on an insertion-ordered dict. -/
def dictGet : StyleMap → String → Option String
  | [], _ => none
  | p :: m, k => if p.1 = k then some p.2 else dictGet m k

/-- `style_map[sel]` membership/lookup on the stylesheet (keys unique in
Python). -/
def findRule : Stylesheet → String → Option StyleMap
  | [], _ => none
  | r :: m, sel => if r.1 = sel then some r.2 else findRule m sel

/-- The value of the LAST binding of `k` in a declaration list (the one a
sequence of `d[k] = v` writes leaves in the dict). -/
def lookupLast : StyleMap → String → Option String
  | [], _ => none
  | p :: s, k =>
    match lookupLast s k with
    | some v => some v
    | none => if p.1 = k then some p.2 else none

theorem dictGet_dictSet (m : StyleMap) (k v q : String) :
    dictGet (dictSet m k v) q = if q = k then some v else dictGet m q := by
  induction m with
  | nil =>
    by_cases h : q = k
    · subst h; simp [dictSet, dictGet]
    · have hkq : ¬ k = q := fun hk => h hk.symm
      simp [dictSet, dictGet, h, hkq]
  | cons p m ih =>
    by_cases hpk : p.1 = k
    · by_cases hqk : q = k
      · subst hqk; simp [dictSet, dictGet, hpk]
      · have hkq : ¬ k = q := fun hk => hqk hk.symm
        have hpq : ¬ p.1 = q := fun hp => hqk (hpk.symm.trans hp).symm
        simp [dictSet, dictGet, hpk, hqk, hkq, hpq]
    · by_cases hqk : q = k
      · subst hqk
        simp [dictSet, dictGet, hpk, ih]
      · by_cases hpq : p.1 = q
        · simp [dictSet, dictGet, hpk, hpq, hqk]
        · simp [dictSet, dictGet, hpk, hpq, hqk, ih]

theorem dictGet_dictUpdate (s m : StyleMap) (q : String) :
    dictGet (dictUpdate m s) q =
      match lookupLast s q with
      | some v => some v
      | none => dictGet m q := by
  induction s generalizing m with
  | nil => simp [dictUpdate, lookupLast]
  | cons p s ih =>
    have hfold : dictUpdate m (p :: s) = dictUpdate (dictSet m p.1 p.2) s := rfl
    rw [hfold, ih]
    rcases h : lookupLast s q with _ | v
    · simp only [lookupLast, h, dictGet_dictSet]
      by_cases hq : q = p.1
      · subst hq; simp
      · have hpq : ¬ p.1 = q := fun hp => hq hp.symm
        simp [hq, hpq]
    · simp [lookupLast, h]

/-- When the last binding of `q` in `s` is absent, `update` leaves `q`
untouched. -/
theorem dictGet_dictUpdate_of_none (s m : StyleMap) (q : String)
    (h : lookupLast s q = none) : dictGet (dictUpdate m s) q = dictGet m q := by
  rw [dictGet_dictUpdate, h]

/-- When the last binding of `q` in `s` is `v`, `update` ends with `q ↦ v`. -/
theorem dictGet_dictUpdate_of_some (s m : StyleMap) (q v : String)
    (h : lookupLast s q = some v) : dictGet (dictUpdate m s) q = some v := by
  rw [dictGet_dictUpdate, h]

/-! ## Numeric parsing

`parseFloatQ` models Python's `float(str)` on plain decimal literals
(optional sign, digits, optional fraction, optional exponent), returning
`none` where `float` raises `ValueError`.  `inf`/`nan` and digit-group
underscores, which cannot occur in the CSS lengths this code feeds it,
are rejected.
-/

def digitsVal (cs : List Char) : Nat :=
  cs.foldl (fun n c => n * 10 + (c.toNat - 48)) 0

def parseFloatQ (s : String) : Option ℚ :=
  let cs := pyStripCL s.data
  let signRest : ℚ × List Char :=
    match cs with
    | '-' :: rest => (-1, rest)
    | '+' :: rest => (1, rest)
    | _ => (1, cs)
  let sign := signRest.1
  let cs1 := signRest.2
  let intPart := cs1.takeWhile (fun c => c.isDigit)
  let rest := cs1.dropWhile (fun c => c.isDigit)
  let fracRest : List Char × List Char :=
    match rest with
    | '.' :: r => (r.takeWhile (fun c => c.isDigit), r.dropWhile (fun c => c.isDigit))
    | _ => ([], rest)
  let fracPart := fracRest.1
  let rest2 := fracRest.2
  if intPart.isEmpty ∧ fracPart.isEmpty then none
  else
    let mantissa : ℚ :=
      (digitsVal intPart : ℚ) + (digitsVal fracPart : ℚ) / ((10 : ℚ) ^ fracPart.length)
    match rest2 with
    | [] => some (sign * mantissa)
    | e :: r =>
      if e = 'e' ∨ e = 'E' then
        let esignRest : Int × List Char :=
          match r with
          | '-' :: rr => (-1, rr)
          | '+' :: rr => (1, rr)
          | _ => (1, r)
        let eDigits := esignRest.2.takeWhile (fun c => c.isDigit)
        let r3 := esignRest.2.dropWhile (fun c => c.isDigit)
        if eDigits.isEmpty ∨ ¬ r3.isEmpty then none
        else some (sign * mantissa * (10 : ℚ) ^ (esignRest.1 * (digitsVal eDigits : Int)))
      else none

/-- `value[:-n]` on a Python string. -/
def strDropRight (s : String) (n : Nat) : String :=
  ⟨s.data.take (s.data.length - n)⟩

/-- A Python value passed to a length parser: a string, a number
(`int`/`float`), or anything else. -/
inductive PyVal where
  | str (s : String)
  | num (q : ℚ)
  | other
deriving DecidableEq

/-- The `try` body of `PPTGenerator._parse_length` on the stripped,
lowercased string; `none` is the raised `ValueError` the bare `except`
turns into `0`. -/
def parse_length_core (v : String) (base_size : ℚ) : Option ℚ :=
  if strEndsWith v "px" then parseFloatQ (strDropRight v 2)
  else if strEndsWith v "pt" then (parseFloatQ (strDropRight v 2)).map (fun x => x * 4 / 3)
  else if strEndsWith v "rem" then (parseFloatQ (strDropRight v 3)).map (fun x => x * base_size)
  else if strEndsWith v "em" then (parseFloatQ (strDropRight v 2)).map (fun x => x * base_size)
  else if strEndsWith v "%" then (parseFloatQ (strDropRight v 1)).map (fun x => x / 100 * base_size)
  else parseFloatQ v

/-- `PPTGenerator._parse_length` (html2pptx.py): px-canonical length parser. -/
def _parse_length (value : PyVal) (base_size : ℚ) : ℚ :=
  match value with
  | .num q => q
  | .other => 0
  | .str s => (parse_length_core (pyLower (pyStrip s)) base_size).getD 0

/-- Unit-conversion constant `REM_PX` (convert_to_pdf.py): 1rem = 16px. -/
def REM_PX : ℚ := 16

/-- Unit-conversion constant `PX_PT` (convert_to_pdf.py): 1px = 0.75pt. -/
def PX_PT : ℚ := 3 / 4

/-- Reference canvas width `PPT_WIDTH_PX` (convert_to_pdf.py). -/
def PPT_WIDTH_PX : ℚ := 1280

/-- Reference canvas height `PPT_HEIGHT_PX` (convert_to_pdf.py). -/
def PPT_HEIGHT_PX : ℚ := 720

/-- The `try` body of `css_value_to_pt` on the stripped, lowercased string. -/
def css_value_to_pt_core (v : String) (base_font_px ppt_width_px ppt_height_px : ℚ) :
    Option ℚ :=
  if strEndsWith v "pt" then parseFloatQ (strDropRight v 2)
  else if strEndsWith v "px" then (parseFloatQ (strDropRight v 2)).map (fun x => x * PX_PT)
  else if strEndsWith v "rem" then (parseFloatQ (strDropRight v 3)).map (fun x => x * REM_PX * PX_PT)
  else if strEndsWith v "em" then (parseFloatQ (strDropRight v 2)).map (fun x => x * base_font_px * PX_PT)
  else if strEndsWith v "vw" then (parseFloatQ (strDropRight v 2)).map (fun x => x * ppt_width_px / 100 * PX_PT)
  else if strEndsWith v "vh" then (parseFloatQ (strDropRight v 2)).map (fun x => x * ppt_height_px / 100 * PX_PT)
  else if strEndsWith v "%" then (parseFloatQ (strDropRight v 1)).map (fun x => x / 100 * base_font_px * PX_PT)
  else parseFloatQ v

/-- `css_value_to_pt` (convert_to_pdf.py): pt-canonical length parser. -/
def css_value_to_pt (val : PyVal) (base_font_px ppt_width_px ppt_height_px : ℚ) : ℚ :=
  match val with
  | .num q => q
  | .other => 0
  | .str s =>
    (css_value_to_pt_core (pyLower (pyStrip s)) base_font_px ppt_width_px ppt_height_px).getD 0

/-- Claim C6: under the default base size (1rem = 16px) the strings "16px" and
"1rem" normalize to exactly the same numeric value in both length parsers:
`_parse_length` maps both to 16 (px-canonical) and `css_value_to_pt` maps both
to 12 (pt-canonical). -/
theorem c6_sixteen_px_eq_one_rem :
    _parse_length (.str "16px") 16 = _parse_length (.str "1rem") 16 ∧
    _parse_length (.str "16px") 16 = 16 ∧
    css_value_to_pt (.str "16px") REM_PX PPT_WIDTH_PX PPT_HEIGHT_PX =
      css_value_to_pt (.str "1rem") REM_PX PPT_WIDTH_PX PPT_HEIGHT_PX ∧
    css_value_to_pt (.str "16px") REM_PX PPT_WIDTH_PX PPT_HEIGHT_PX = 12 := by
  refine ⟨by with_unfolding_all decide, by with_unfolding_all decide,
    by with_unfolding_all decide, by with_unfolding_all decide⟩

/-- Claim C7: both length parsers are total; an unparseable string (one whose
`try` body raises, i.e. whose core parse is `none`) normalizes to 0, and a
non-string, non-numeric value normalizes to 0.  No input raises: in this
embedding the bare `except` of the source is the `Option.getD 0` default, so
every input is mapped to a rational result. -/
theorem c7_unparseable_normalizes_to_zero (s : String) (b : ℚ)
    (h1 : parse_length_core (pyLower (pyStrip s)) b = none)
    (h2 : css_value_to_pt_core (pyLower (pyStrip s)) b PPT_WIDTH_PX PPT_HEIGHT_PX = none) :
    _parse_length (.str s) b = 0 ∧
    _parse_length .other b = 0 ∧
    css_value_to_pt (.str s) b PPT_WIDTH_PX PPT_HEIGHT_PX = 0 ∧
    css_value_to_pt .other b PPT_WIDTH_PX PPT_HEIGHT_PX = 0 := by
  refine ⟨?_, rfl, ?_, rfl⟩
  · simp [_parse_length, h1]
  · simp [css_value_to_pt, h2]

/-- Witness for C7: the non-numeric string "auto" normalizes to 0 in both
parsers. -/
theorem c7_unparseable_normalizes_to_zero_witness :
    _parse_length (.str "auto") 16 = 0 ∧
    _parse_length .other 16 = 0 ∧
    css_value_to_pt (.str "auto") 16 PPT_WIDTH_PX PPT_HEIGHT_PX = 0 ∧
    css_value_to_pt .other 16 PPT_WIDTH_PX PPT_HEIGHT_PX = 0 :=
  c7_unparseable_normalizes_to_zero "auto" 16 (by with_unfolding_all decide)
    (by with_unfolding_all decide)

/-! ## Style cascade (Claim C1)

`CSSProcessor.compute_element_style` (html2pptx.py) and `get_element_style`
(convert_to_pdf.py).  An element carries the attributes the Python code reads
from the BeautifulSoup `Tag`: tag name, class list (`[]` when the attribute is
absent), optional id, optional raw inline `style` text.
-/

structure HtmlElement where
  tag : String
  classes : List String
  idAttr : Option String
  styleAttr : Option String

/-- `CSSProcessor._parse_inline_style`: split on `;`, then on the first `:`,
strip both sides, build a dict. -/
def _parse_inline_style (style_str : String) : StyleMap :=
  (pySplitChar style_str ';').foldl
    (fun styles rule =>
      if strContains rule ":" then
        let pv := splitFirst ':' rule.data
        dictSet styles (pyStrip ⟨pv.1⟩) (pyStrip ⟨pv.2⟩)
      else styles)
    []

/-- Step 1 of `compute_element_style`: apply every rule whose selector equals
the tag name. -/
def compute_tag_stage (tag_name : String) (all_styles : Stylesheet) : StyleMap :=
  all_styles.foldl
    (fun acc r => if r.1 = tag_name then dictUpdate acc r.2 else acc) []

/-- Step 2 of `compute_element_style`: for each class in class-list order,
apply every rule whose selector is `.cls` or `tag.cls`. -/
def compute_class_stage (tag_name : String) (classes : List String)
    (all_styles : Stylesheet) (computed : StyleMap) : StyleMap :=
  classes.foldl
    (fun acc class_name =>
      all_styles.foldl
        (fun acc2 r =>
          if r.1 = "." ++ class_name then dictUpdate acc2 r.2
          else if r.1 = tag_name ++ "." ++ class_name then dictUpdate acc2 r.2
          else acc2)
        acc)
    computed

/-- Step 3 of `compute_element_style`: apply every rule whose selector is
`#id`, when the element has an id. -/
def compute_id_stage (idAttr : Option String) (all_styles : Stylesheet)
    (computed : StyleMap) : StyleMap :=
  match idAttr with
  | none => computed
  | some id_name =>
    all_styles.foldl
      (fun acc r => if r.1 = "#" ++ id_name then dictUpdate acc r.2 else acc) computed

/-- `CSSProcessor.compute_element_style`: merge tag rules, then class rules in
class-list order (both `.cls` and `tag.cls` forms), then id rules, then inline
declarations, later writers overwriting earlier ones. -/
def compute_element_style (element : HtmlElement) (all_styles : Stylesheet) : StyleMap :=
  let tag_name := pyLower element.tag
  let computed := compute_tag_stage tag_name all_styles
  let computed := compute_class_stage tag_name element.classes all_styles computed
  let computed := compute_id_stage element.idAttr all_styles computed
  match element.styleAttr with
  | none => computed
  | some s => dictUpdate computed (_parse_inline_style s)

/-- A node as read by `get_element_style` (convert_to_pdf.py); the inline
`style` attribute arrives already parsed because the source hands it to the
external `cssutils.parseStyle`. -/
structure PdfTag where
  name : String
  classes : List String
  idAttr : Option String
  inlineDecls : Option StyleMap

/-- `get_element_style` (convert_to_pdf.py): merge tag, class (in list order),
id, then inline declarations over a dict, via direct `style_map[selector]`
lookups. -/
def pdf_tag_stage (name : String) (style_map : Stylesheet) : StyleMap :=
  if name ≠ "" then
    match findRule style_map name with
    | some pr => dictUpdate [] pr
    | none => []
  else []

def pdf_class_stage (classes : List String) (style_map : Stylesheet)
    (styles : StyleMap) : StyleMap :=
  classes.foldl
    (fun acc cls =>
      match findRule style_map ("." ++ cls) with
      | some pr => dictUpdate acc pr
      | none => acc)
    styles

def pdf_id_stage (idAttr : Option String) (style_map : Stylesheet)
    (styles : StyleMap) : StyleMap :=
  match idAttr with
  | none => styles
  | some i =>
    match findRule style_map ("#" ++ i) with
    | some pr => dictUpdate styles pr
    | none => styles

def get_element_style (tag : PdfTag) (style_map : Stylesheet) : StyleMap :=
  let styles := pdf_tag_stage tag.name style_map
  let styles := pdf_class_stage tag.classes style_map styles
  let styles := pdf_id_stage tag.idAttr style_map styles
  match tag.inlineDecls with
  | none => styles
  | some decls => dictUpdate styles decls

/-- Last write of property `k` performed by the rules of `styles` whose
selector equals `sel` (later rules override earlier ones). -/
def stageLast : Stylesheet → String → String → Option String
  | [], _, _ => none
  | r :: rest, sel, k =>
    match stageLast rest sel k with
    | some v => some v
    | none => if r.1 = sel then lookupLast r.2 k else none

/-- Last write of property `k` by rules whose selector is `s1` or `s2`. -/
def stageLast2 : Stylesheet → String → String → String → Option String
  | [], _, _, _ => none
  | r :: rest, s1, s2, k =>
    match stageLast2 rest s1 s2 k with
    | some v => some v
    | none => if r.1 = s1 ∨ r.1 = s2 then lookupLast r.2 k else none

theorem dictGet_foldl_sel (styles : Stylesheet) (sel k : String) (acc : StyleMap) :
    dictGet (styles.foldl (fun a r => if r.1 = sel then dictUpdate a r.2 else a) acc) k =
      match stageLast styles sel k with
      | some v => some v
      | none => dictGet acc k := by
  induction styles generalizing acc with
  | nil => simp [stageLast]
  | cons r rest ih =>
    rw [List.foldl_cons, ih]
    rcases h : stageLast rest sel k with _ | v
    · simp only [stageLast, h]
      by_cases hr : r.1 = sel
      · simp [hr, dictGet_dictUpdate]
      · simp [hr]
    · simp [stageLast, h]

theorem dictGet_foldl_sel2 (styles : Stylesheet) (s1 s2 k : String) (acc : StyleMap) :
    dictGet (styles.foldl
        (fun a r => if r.1 = s1 then dictUpdate a r.2
          else if r.1 = s2 then dictUpdate a r.2 else a) acc) k =
      match stageLast2 styles s1 s2 k with
      | some v => some v
      | none => dictGet acc k := by
  induction styles generalizing acc with
  | nil => simp [stageLast2]
  | cons r rest ih =>
    rw [List.foldl_cons, ih]
    rcases h : stageLast2 rest s1 s2 k with _ | v
    · simp only [stageLast2, h]
      by_cases hr1 : r.1 = s1
      · simp [hr1, dictGet_dictUpdate]
      · by_cases hr2 : r.1 = s2
        · simp [hr1, hr2, dictGet_dictUpdate]
        · simp [hr1, hr2]
    · simp [stageLast2, h]

/-- Last write of property `k` by the class stage, classes processed in list
order (`.cls` or `tag.cls` selectors). -/
def classStageLast (tag_name : String) (styles : Stylesheet) : List String → String → Option String
  | [], _ => none
  | cls :: rest, k =>
    match classStageLast tag_name styles rest k with
    | some v => some v
    | none => stageLast2 styles ("." ++ cls) (tag_name ++ "." ++ cls) k

theorem dictGet_foldl_classes (tag_name : String) (styles : Stylesheet)
    (classes : List String) (k : String) (acc : StyleMap) :
    dictGet (classes.foldl
        (fun acc2 class_name =>
          styles.foldl
            (fun a r =>
              if r.1 = "." ++ class_name then dictUpdate a r.2
              else if r.1 = tag_name ++ "." ++ class_name then dictUpdate a r.2
              else a)
            acc2)
        acc) k =
      match classStageLast tag_name styles classes k with
      | some v => some v
      | none => dictGet acc k := by
  induction classes generalizing acc with
  | nil => simp [classStageLast]
  | cons cls rest ih =>
    rw [List.foldl_cons, ih]
    rcases h : classStageLast tag_name styles rest k with _ | v
    · simp only [classStageLast, h, dictGet_foldl_sel2]
    · simp [classStageLast, h]

theorem stageLast_eq_none (styles : Stylesheet) (sel k : String)
    (h : sel ∉ styles.map Prod.fst) : stageLast styles sel k = none := by
  induction styles with
  | nil => rfl
  | cons r rest ih =>
    simp only [List.map_cons, List.mem_cons, not_or] at h
    have hr : ¬ r.1 = sel := fun hh => h.1 hh.symm
    simp [stageLast, ih h.2, hr]

theorem stageLast_of_mem (styles : Stylesheet) (sel k : String) (props : StyleMap)
    (hnodup : (styles.map Prod.fst).Nodup) (hmem : (sel, props) ∈ styles) :
    stageLast styles sel k = lookupLast props k := by
  induction styles with
  | nil => cases hmem
  | cons r rest ih =>
    simp only [List.map_cons, List.nodup_cons] at hnodup
    rcases List.mem_cons.1 hmem with heq | hmem'
    · subst heq
      have : sel ∉ rest.map Prod.fst := by simpa using hnodup.1
      simp [stageLast, stageLast_eq_none rest sel k this]
    · have hkey : sel ∈ rest.map Prod.fst := List.mem_map.2 ⟨(sel, props), hmem', rfl⟩
      have hr : ¬ r.1 = sel := fun h => hnodup.1 (h ▸ hkey)
      rcases h : stageLast rest sel k with _ | v
      · have hlp : lookupLast props k = none := (ih hnodup.2 hmem').symm.trans h
        simp [stageLast, h, hr, hlp]
      · have hlp : lookupLast props k = some v := (ih hnodup.2 hmem').symm.trans h
        simp [stageLast, h, hlp]

theorem findRule_of_mem (m : Stylesheet) (sel : String) (props : StyleMap)
    (hnodup : (m.map Prod.fst).Nodup) (hmem : (sel, props) ∈ m) :
    findRule m sel = some props := by
  induction m with
  | nil => cases hmem
  | cons r rest ih =>
    simp only [List.map_cons, List.nodup_cons] at hnodup
    rcases List.mem_cons.1 hmem with heq | hmem'
    · subst heq; simp [findRule]
    · have hkey : sel ∈ rest.map Prod.fst := List.mem_map.2 ⟨(sel, props), hmem', rfl⟩
      have hr : ¬ r.1 = sel := fun h => hnodup.1 (h ▸ hkey)
      simp [findRule, hr, ih hnodup.2 hmem']

/-- Claim C1: when tag-, class-, and id-selector rules all set the same
property on a node, the cascade returns the id rule's value; when the node
additionally carries an inline declaration for that property, the inline
value wins.  The merge is tag rules, then class rules in class-list order,
then id rules, then inline declarations, later writers overwriting earlier
ones — in both `CSSProcessor.compute_element_style` (html2pptx.py) and
`get_element_style` (convert_to_pdf.py). -/
theorem c1_id_over_class_over_tag_inline_over_id
    (all_styles : Stylesheet) (e : HtmlElement) (idName p vtag vclass vid cls : String)
    (tagProps classProps idProps : StyleMap)
    (style_map : Stylesheet) (t : PdfTag) (pidName pvid : String) (pidProps : StyleMap)
    (hnodup : (all_styles.map Prod.fst).Nodup)
    (hid : e.idAttr = some idName)
    (htag : (pyLower e.tag, tagProps) ∈ all_styles)
    (htagp : lookupLast tagProps p = some vtag)
    (hcls : cls ∈ e.classes)
    (hclsr : ("." ++ cls, classProps) ∈ all_styles)
    (hclsp : lookupLast classProps p = some vclass)
    (hidr : ("#" ++ idName, idProps) ∈ all_styles)
    (hidp : lookupLast idProps p = some vid)
    (pnodup : (style_map.map Prod.fst).Nodup)
    (ptid : t.idAttr = some pidName)
    (pidr : ("#" ++ pidName, pidProps) ∈ style_map)
    (pidp : lookupLast pidProps p = some pvid) :
    (e.styleAttr = none →
      dictGet (compute_element_style e all_styles) p = some vid) ∧
    (∀ inl, e.styleAttr = some inl → lookupLast (_parse_inline_style inl) p = none →
      dictGet (compute_element_style e all_styles) p = some vid) ∧
    (∀ inl vinl, e.styleAttr = some inl →
      lookupLast (_parse_inline_style inl) p = some vinl →
      dictGet (compute_element_style e all_styles) p = some vinl) ∧
    (t.inlineDecls = none → dictGet (get_element_style t style_map) p = some pvid) ∧
    (∀ decls vinl, t.inlineDecls = some decls → lookupLast decls p = some vinl →
      dictGet (get_element_style t style_map) p = some vinl) := by
  have hX : ∀ acc, dictGet (compute_id_stage e.idAttr all_styles acc) p = some vid := by
    intro acc
    rw [hid]
    simp only [compute_id_stage]
    rw [dictGet_foldl_sel, stageLast_of_mem all_styles _ p idProps hnodup hidr, hidp]
  have hpfind : findRule style_map ("#" ++ pidName) = some pidProps :=
    findRule_of_mem _ _ _ pnodup pidr
  have hY : ∀ acc, dictGet (pdf_id_stage t.idAttr style_map acc) p = some pvid := by
    intro acc
    rw [ptid]
    simp only [pdf_id_stage, hpfind]
    exact dictGet_dictUpdate_of_some _ _ _ _ pidp
  refine ⟨?_, ?_, ?_, ?_, ?_⟩
  · intro hnone
    simp only [compute_element_style, hnone]
    exact hX _
  · intro inl hsome hlook
    simp only [compute_element_style, hsome]
    rw [dictGet_dictUpdate_of_none _ _ _ hlook]
    exact hX _
  · intro inl vinl hsome hlook
    simp only [compute_element_style, hsome]
    exact dictGet_dictUpdate_of_some _ _ _ _ hlook
  · intro hnone
    simp only [get_element_style, hnone]
    exact hY _
  · intro decls vinl hsome hlook
    simp only [get_element_style, hsome]
    exact dictGet_dictUpdate_of_some _ _ _ _ hlook

/-- The concrete stylesheet used by the C1 witness: an `h1` tag rule, a
`.box` class rule, and a `#main` id rule all setting `color`. -/
def c1css : Stylesheet :=
  [("h1", [("color", "red")]),
   (".box", [("color", "green")]),
   ("#main", [("color", "blue")])]

/-- Witness for C1: on `<h1 class="box" id="main">` the resolved color is the
id rule's blue; adding `style="color: purple"` makes it purple — in both
embedded resolvers. -/
theorem c1_id_over_class_over_tag_inline_over_id_witness :
    dictGet (compute_element_style ⟨"h1", ["box"], some "main", none⟩ c1css) "color" =
      some "blue" ∧
    dictGet (compute_element_style ⟨"h1", ["box"], some "main", some "color: purple"⟩ c1css)
      "color" = some "purple" ∧
    dictGet (get_element_style ⟨"h1", ["box"], some "main", none⟩ c1css) "color" =
      some "blue" ∧
    dictGet (get_element_style ⟨"h1", ["box"], some "main", some [("color", "purple")]⟩ c1css)
      "color" = some "purple" := by
  refine ⟨?_, ?_, ?_, ?_⟩
  · exact (c1_id_over_class_over_tag_inline_over_id c1css
      ⟨"h1", ["box"], some "main", none⟩ "main" "color" "red" "green" "blue" "box"
      [("color", "red")] [("color", "green")] [("color", "blue")]
      c1css ⟨"h1", ["box"], some "main", none⟩ "main" "blue" [("color", "blue")]
      (by decide) rfl (by decide) rfl (by decide) (by decide) rfl (by decide) rfl
      (by decide) rfl (by decide) rfl).1 rfl
  · exact (c1_id_over_class_over_tag_inline_over_id c1css
      ⟨"h1", ["box"], some "main", some "color: purple"⟩ "main" "color" "red" "green" "blue"
      "box" [("color", "red")] [("color", "green")] [("color", "blue")]
      c1css ⟨"h1", ["box"], some "main", none⟩ "main" "blue" [("color", "blue")]
      (by decide) rfl (by decide) rfl (by decide) (by decide) rfl (by decide) rfl
      (by decide) rfl (by decide) rfl).2.2.1 "color: purple" "purple" rfl
      (by with_unfolding_all decide)
  · exact (c1_id_over_class_over_tag_inline_over_id c1css
      ⟨"h1", ["box"], some "main", none⟩ "main" "color" "red" "green" "blue" "box"
      [("color", "red")] [("color", "green")] [("color", "blue")]
      c1css ⟨"h1", ["box"], some "main", none⟩ "main" "blue" [("color", "blue")]
      (by decide) rfl (by decide) rfl (by decide) (by decide) rfl (by decide) rfl
      (by decide) rfl (by decide) rfl).2.2.2.1 rfl
  · exact (c1_id_over_class_over_tag_inline_over_id c1css
      ⟨"h1", ["box"], some "main", none⟩ "main" "color" "red" "green" "blue" "box"
      [("color", "red")] [("color", "green")] [("color", "blue")]
      c1css ⟨"h1", ["box"], some "main", some [("color", "purple")]⟩ "main" "blue"
      [("color", "blue")]
      (by decide) rfl (by decide) rfl (by decide) (by decide) rfl (by decide) rfl
      (by decide) rfl (by decide) rfl).2.2.2.2 [("color", "purple")] "purple" rfl
      (by decide)

/-! ## Overlap resolver (Claims C2, C3)

`ElementPosition` and `SmartPositionCalculator._resolve_overlaps`
(layout_analyzer.py).  The `TemplateConfig` class lives in
`enhanced_html2pptx.py`, which is not part of the repository snapshot; only
the two fields `_resolve_overlaps` reads are modelled.
-/

structure ElementPosition where
  left : ℚ
  top : ℚ
  width : ℚ
  height : ℚ
  z_index : Int
  element_type : String
deriving DecidableEq

/-- `ElementPosition.overlaps_with`: strict axis-aligned rectangle
intersection test on left/top/width/height. -/
def ElementPosition.overlaps_with (self other : ElementPosition) : Bool :=
  decide (self.left < other.left + other.width) &&
  decide (self.left + self.width > other.left) &&
  decide (self.top < other.top + other.height) &&
  decide (self.top + self.height > other.top)

/-- `ElementPosition.get_area`. -/
def ElementPosition.get_area (self : ElementPosition) : ℚ := self.width * self.height

/-- The two `TemplateConfig` fields read by `_resolve_overlaps`. -/
structure TemplateConfig where
  overlap_detection : Bool
  overlap_resolution : String

def dummyPos : ElementPosition := ⟨0, 0, 0, 0, 0, ""⟩

/-- `resolved_positions[i]` (indices stay in range in the source loops). -/
def getPos (ps : List ElementPosition) (i : Nat) : ElementPosition :=
  ps.getD i dummyPos

/-- The body of the double loop of `_resolve_overlaps` for one pair `(i, j)`:
when the boxes overlap and resolution is `auto_adjust`, rebuild box `j` with
`top = box i's top + box i's height + 0.1`, keeping all its other fields. -/
def resolveStep (cfg : TemplateConfig) (ps : List ElementPosition) (i j : Nat) :
    List ElementPosition :=
  if (getPos ps i).overlaps_with (getPos ps j) then
    if cfg.overlap_resolution = "auto_adjust" then
      let pa := getPos ps i
      let pb := getPos ps j
      ps.set j ⟨pb.left, pa.top + pa.height + 1 / 10, pb.width, pb.height,
        pb.z_index, pb.element_type⟩
    else ps
  else ps

/-- `SmartPositionCalculator._resolve_overlaps`: one forward sweep over all
ordered pairs `i < j`. -/
def _resolve_overlaps (cfg : TemplateConfig) (positions : List ElementPosition) :
    List ElementPosition :=
  if ¬ cfg.overlap_detection then positions
  else
    (List.range positions.length).foldl
      (fun acc i =>
        (List.range' (i + 1) (positions.length - (i + 1))).foldl
          (fun acc2 j => resolveStep cfg acc2 i j)
          acc)
      positions

/-- All ordered index pairs `(i, j)` with `i < j < n`, in lexicographic
(single forward pass) order. -/
def allPairsLex (n : Nat) : List (Nat × Nat) :=
  (List.range n).flatMap
    (fun i => (List.range' (i + 1) (n - (i + 1))).map (fun j => (i, j)))

/-- Modelled from the spec (§4.5): for the ordered pair `(i, j)`, if the boxes
intersect, shift box `j` downward so its top is box `i`'s top + height + a
fixed gap, preserving its width/height/left. -/
def forward_pass_step (ps : List ElementPosition) (ij : Nat × Nat) :
    List ElementPosition :=
  let a := getPos ps ij.1
  let b := getPos ps ij.2
  if a.overlaps_with b then
    ps.set ij.2 ⟨b.left, a.top + a.height + 1 / 10, b.width, b.height,
      b.z_index, b.element_type⟩
  else ps

/-- Modelled from the spec (§4.5): a single forward pass over every ordered
pair `(i, j)` with `i < j`, in order. -/
def forward_pass_spec (positions : List ElementPosition) : List ElementPosition :=
  (allPairsLex positions.length).foldl forward_pass_step positions

/-- Zero pairwise intersection area: no ordered pair of boxes overlaps. -/
def pairwise_disjoint (ps : List ElementPosition) : Bool :=
  (allPairsLex ps.length).all
    (fun ij => ! (getPos ps ij.1).overlaps_with (getPos ps ij.2))

theorem foldl_flatMap {α β γ : Type} (f : β → α → β) (g : γ → List α)
    (l : List γ) (init : β) :
    (l.flatMap g).foldl f init = l.foldl (fun acc c => (g c).foldl f acc) init := by
  induction l generalizing init with
  | nil => rfl
  | cons c l ih => simp [List.flatMap_cons, List.foldl_append, ih]

theorem foldl_fixed {α β : Type} (f : β → α → β) (b : β) (l : List α)
    (h : ∀ a ∈ l, f b a = b) : l.foldl f b = b := by
  induction l with
  | nil => rfl
  | cons a l ih =>
    rw [List.foldl_cons, h a (List.mem_cons_self a l)]
    exact ih (fun x hx => h x (List.mem_cons_of_mem a hx))

theorem mem_allPairsLex {n i j : Nat} (hij : i < j) (hj : j < n) :
    (i, j) ∈ allPairsLex n := by
  simp only [allPairsLex, List.mem_flatMap, List.mem_map, List.mem_range]
  refine ⟨i, lt_trans hij hj, ⟨j, ?_, rfl⟩⟩
  rw [List.mem_range'_1]
  omega

/-- The configuration the tests and the demo run with: overlap detection on,
resolution mode `auto_adjust`. -/
def autoCfg : TemplateConfig := ⟨true, "auto_adjust"⟩

theorem resolveStep_auto (ps : List ElementPosition) (i j : Nat) :
    resolveStep autoCfg ps i j = forward_pass_step ps (i, j) := by
  simp [resolveStep, forward_pass_step, autoCfg]

/-- Claim C3: under the active configuration the resolver is exactly the
single forward pass over every ordered pair `(i, j)` with `i < j` in order;
for one pair it replaces box `j` by a box with top = box `i`'s top + height +
the fixed gap 0.1, preserving box `j`'s left, width, height, z-order and
element-type tag, exactly when the two boxes intersect; otherwise the pair
leaves the list unchanged (in particular box `i` is never modified). -/
theorem c3_single_forward_pass (ps : List ElementPosition) (i j : Nat) :
    _resolve_overlaps autoCfg ps = forward_pass_spec ps ∧
    ((getPos ps i).overlaps_with (getPos ps j) = true →
      resolveStep autoCfg ps i j =
        ps.set j ⟨(getPos ps j).left,
          (getPos ps i).top + (getPos ps i).height + 1 / 10,
          (getPos ps j).width, (getPos ps j).height,
          (getPos ps j).z_index, (getPos ps j).element_type⟩) ∧
    ((getPos ps i).overlaps_with (getPos ps j) = false →
      resolveStep autoCfg ps i j = ps) := by
  refine ⟨?_, ?_, ?_⟩
  · unfold _resolve_overlaps
    rw [if_neg (by simp [autoCfg])]
    unfold forward_pass_spec allPairsLex
    rw [foldl_flatMap]
    congr 1
    funext acc i
    rw [List.foldl_map]
    congr 1
  · intro hov
    rw [resolveStep_auto, forward_pass_step, if_pos hov]
  · intro hov
    rw [resolveStep_auto, forward_pass_step, if_neg (by simp [hov])]

/-- Witness for C3: a concrete overlapping pair is shifted down by height +
0.1 with every other field preserved, a non-overlapping pair is untouched,
and the resolver coincides with the forward pass on a concrete list. -/
theorem c3_single_forward_pass_witness :
    (_resolve_overlaps autoCfg
        [⟨0, 0, 1, 1, 0, "content"⟩, ⟨0, 1/2, 1, 1, 0, "content"⟩] =
      forward_pass_spec
        [⟨0, 0, 1, 1, 0, "content"⟩, ⟨0, 1/2, 1, 1, 0, "content"⟩]) ∧
    resolveStep autoCfg
        [⟨0, 0, 1, 1, 0, "content"⟩, ⟨0, 1/2, 1, 1, 0, "content"⟩] 0 1 =
      [⟨0, 0, 1, 1, 0, "content"⟩, ⟨0, 11/10, 1, 1, 0, "content"⟩] ∧
    resolveStep autoCfg
        [⟨0, 0, 1, 1, 0, "content"⟩, ⟨0, 5, 1, 1, 0, "content"⟩] 0 1 =
      [⟨0, 0, 1, 1, 0, "content"⟩, ⟨0, 5, 1, 1, 0, "content"⟩] := by
  refine ⟨(c3_single_forward_pass _ 0 1).1, ?_, ?_⟩
  · rw [(c3_single_forward_pass
        [⟨0, 0, 1, 1, 0, "content"⟩, ⟨0, 1/2, 1, 1, 0, "content"⟩] 0 1).2.1
        (by with_unfolding_all decide)]
    with_unfolding_all decide
  · exact (c3_single_forward_pass
        [⟨0, 0, 1, 1, 0, "content"⟩, ⟨0, 5, 1, 1, 0, "content"⟩] 0 1).2.2
        (by with_unfolding_all decide)

/-- Counterexample for C2: on the boxes A = (top 1.2, h 0.1),
B = (top 0, h 1), C = (top 0.5, h 0.5) (all sharing left 0, width 1) the
resolver's single pass shifts C onto A — pair (0, 2) was already checked
before C moved — so the output still has a pair with positive intersection
area, and running the resolver a second time shifts C again (not idempotent). -/
theorem c2_resolver_output_overlaps_counterexample :
    pairwise_disjoint
        (_resolve_overlaps autoCfg
          [⟨0, 12/10, 1, 1/10, 0, "content"⟩,
           ⟨0, 0, 1, 1, 0, "content"⟩,
           ⟨0, 1/2, 1, 1/2, 0, "content"⟩]) = false ∧
    _resolve_overlaps autoCfg
        (_resolve_overlaps autoCfg
          [⟨0, 12/10, 1, 1/10, 0, "content"⟩,
           ⟨0, 0, 1, 1, 0, "content"⟩,
           ⟨0, 1/2, 1, 1/2, 0, "content"⟩]) ≠
      _resolve_overlaps autoCfg
          [⟨0, 12/10, 1, 1/10, 0, "content"⟩,
           ⟨0, 0, 1, 1, 0, "content"⟩,
           ⟨0, 1/2, 1, 1/2, 0, "content"⟩] := by
  constructor
  · with_unfolding_all decide
  · with_unfolding_all decide

/-- Claim C2 (amended): when the input list is already pairwise
non-overlapping, the resolver returns it unchanged — for any configuration —
and hence running it twice on such an input produces no further shifts. -/
theorem c2_resolver_fixed_on_disjoint (cfg : TemplateConfig)
    (ps : List ElementPosition) (h : pairwise_disjoint ps = true) :
    _resolve_overlaps cfg ps = ps ∧
    _resolve_overlaps cfg (_resolve_overlaps cfg ps) = _resolve_overlaps cfg ps := by
  have hpair : ∀ i j, i < j → j < ps.length →
      (getPos ps i).overlaps_with (getPos ps j) = false := by
    intro i j hij hj
    have := List.all_eq_true.1 h (i, j) (mem_allPairsLex hij hj)
    simpa using this
  have hmain : _resolve_overlaps cfg ps = ps := by
    unfold _resolve_overlaps
    by_cases hdet : cfg.overlap_detection
    · rw [if_neg (by simp [hdet])]
      apply foldl_fixed
      intro i hi
      apply foldl_fixed
      intro j hj
      rw [List.mem_range] at hi
      rw [List.mem_range'_1] at hj
      unfold resolveStep
      rw [if_neg]
      simp only [Bool.not_eq_true]
      exact hpair i j (by omega) (by omega)
    · rw [if_pos (by simp [hdet])]
  exact ⟨hmain, by rw [hmain, hmain]⟩

/-- Witness for the amended C2: two separated boxes pass through the resolver
unchanged, twice. -/
theorem c2_resolver_fixed_on_disjoint_witness :
    _resolve_overlaps autoCfg
        [⟨0, 0, 1, 1, 0, "content"⟩, ⟨0, 3, 1, 1, 0, "content"⟩] =
      [⟨0, 0, 1, 1, 0, "content"⟩, ⟨0, 3, 1, 1, 0, "content"⟩] ∧
    _resolve_overlaps autoCfg
        (_resolve_overlaps autoCfg
          [⟨0, 0, 1, 1, 0, "content"⟩, ⟨0, 3, 1, 1, 0, "content"⟩]) =
      _resolve_overlaps autoCfg
        [⟨0, 0, 1, 1, 0, "content"⟩, ⟨0, 3, 1, 1, 0, "content"⟩] :=
  c2_resolver_fixed_on_disjoint autoCfg
    [⟨0, 0, 1, 1, 0, "content"⟩, ⟨0, 3, 1, 1, 0, "content"⟩]
    (by with_unfolding_all decide)

/-! ## Content elements and height estimation (Claim C9)

`TextProcessor.extract_all_text_elements` produces dicts with keys `type`,
`content` (a string, or a list of item dicts for lists), `style`, `tag`.
`PPTGenerator._calculate_element_height` (html2pptx.py) reads exactly those.
-/

/-- The `content` payload of an extracted element: a string for text
elements, an item list (text with merged style per item) for lists. -/
inductive EContent where
  | str (s : String)
  | items (l : List (String × StyleMap))
deriving DecidableEq

/-- `len(content)` — Python `len` on either payload kind. -/
def contentLen : EContent → Nat
  | .str s => s.length
  | .items l => l.length

/-- `str(content)`.  The extractor stores item lists only under
`type = 'list'`, and the only consumer of `str(content)` on lists never runs
(the `list` branch is taken first), so the item-list case is unreachable in
the source and mapped to `""`. -/
def contentStr : EContent → String
  | .str s => s
  | .items _ => ""

structure TElem where
  etype : String
  content : EContent
  style : StyleMap
  tag : String
deriving DecidableEq

structure ConversionConfig where
  SLIDE_WIDTH_INCHES : ℚ
  SLIDE_HEIGHT_INCHES : ℚ
  PX_TO_INCHES : ℚ
  DEFAULT_FONT_SIZE : ℚ
  DEFAULT_PADDING : ℚ
  ELEMENT_SPACING : ℚ
  MIN_ELEMENT_HEIGHT : ℚ
  PRESERVE_BACKGROUND : Bool
  DEFAULT_BACKGROUND_COLOR : String

/-- `ConversionConfig.__init__` defaults (html2pptx.py). -/
def defaultConfig : ConversionConfig :=
  ⟨1333 / 100, 15 / 2, 1 / 96, 18, 60, 15, 3 / 10, true, "#ffffff"⟩

/-- `PPTGenerator.px_to_inches` on a numeric argument (every embedded call
site passes a number; string arguments first go through `_parse_length`). -/
def px_to_inches (cfg : ConversionConfig) (px : ℚ) : ℚ :=
  px * cfg.PX_TO_INCHES

/-- `PPTGenerator._calculate_element_height`: per-kind base heights (headings
by tag; lists by item count; code by line count; quote/paragraph by character
count), then clamp into the global band [35px, 250px]. -/
def _calculate_element_height (cfg : ConversionConfig) (element : TElem) : ℚ :=
  let element_type := element.etype
  let tag := element.tag
  let content := contentStr element.content
  let base_height :=
    if element_type = "heading" ∨ tag ∈ ["h1", "h2", "h3", "h4", "h5", "h6"] then
      if tag = "h1" then px_to_inches cfg 85
      else if tag = "h2" then px_to_inches cfg 70
      else if tag = "h3" then px_to_inches cfg 55
      else if tag = "h4" then px_to_inches cfg 45
      else px_to_inches cfg 40
    else if element_type = "list" then
      let item_count := contentLen element.content
      px_to_inches cfg (45 + (item_count : ℚ) * 32)
    else if element_type = "code" then
      let line_count := (pySplitChar content '\n').length
      px_to_inches cfg (55 + (line_count : ℚ) * 25)
    else if element_type = "quote" then
      let line_count := max 1 (content.length / 50 + 1)
      px_to_inches cfg (50 + (line_count : ℚ) * 28)
    else if element_type = "paragraph" ∨ element_type = "text_block" then
      let char_count := content.length
      if char_count ≤ 50 then px_to_inches cfg 45
      else if char_count ≤ 150 then px_to_inches cfg 60
      else if char_count ≤ 300 then px_to_inches cfg 80
      else
        let line_count := max 2 (char_count / 60 + 1)
        px_to_inches cfg (35 + (line_count : ℚ) * 25)
    else if element_type = "inline_text" then px_to_inches cfg 35
    else
      let line_count := max 2 (content.length / 70 + 1)
      px_to_inches cfg (35 + (line_count : ℚ) * 22)
  let min_height := px_to_inches cfg 35
  let max_height := px_to_inches cfg 250
  max min_height (min base_height max_height)

/-- An element as seen by `SmartPositionCalculator._estimate_element_height`
(layout_analyzer.py): dicts with `type`, `level`, `content`. -/
structure AElem where
  etype : String
  level : Nat
  content : EContent
deriving DecidableEq

/-- `SmartPositionCalculator._estimate_element_height`: heading heights by
level, list heights by item count, text heights by `len(content) // 80`
lines, each with only a lower clamp. -/
def _estimate_element_height (element : AElem) : ℚ :=
  if element.etype = "heading" then
    if element.level = 1 then 1
    else if element.level = 2 then 8 / 10
    else 6 / 10
  else if element.etype = "list" then
    match element.content with
    | .items l => max (4 / 10) ((l.length : ℚ) * (3 / 10))
    | .str _ => 6 / 10
  else
    match element.content with
    | .str s => max (4 / 10) ((max 1 (s.length / 80) : Nat) * (3 / 10) : ℚ)
    | .items _ => 1 / 2

/-- The paragraph/text-block base height in px, as a function of the
character count (the body of the `paragraph` branch of
`_calculate_element_height`). -/
def para_base_px (cc : Nat) : ℚ :=
  if cc ≤ 50 then 45
  else if cc ≤ 150 then 60
  else if cc ≤ 300 then 80
  else 35 + ((max 2 (cc / 60 + 1) : Nat) : ℚ) * 25

/-- The quote base height in px as a function of the character count. -/
def quote_base_px (cc : Nat) : ℚ :=
  50 + ((max 1 (cc / 50 + 1) : Nat) : ℚ) * 28

theorem calc_height_para (cfg : ConversionConfig) (s : String) (st : StyleMap) :
    _calculate_element_height cfg ⟨"paragraph", .str s, st, "p"⟩ =
      max (px_to_inches cfg 35)
        (min (px_to_inches cfg (para_base_px s.length)) (px_to_inches cfg 250)) := by
  simp only [_calculate_element_height, contentStr, para_base_px]
  rw [if_neg (by decide), if_neg (by decide), if_neg (by decide), if_neg (by decide),
    if_pos (by decide)]
  by_cases h50 : s.length ≤ 50
  · simp [h50]
  · by_cases h150 : s.length ≤ 150
    · simp [h50, h150]
    · by_cases h300 : s.length ≤ 300
      · simp [h50, h150, h300]
      · simp [h50, h150, h300]

theorem calc_height_quote (cfg : ConversionConfig) (s : String) (st : StyleMap) :
    _calculate_element_height cfg ⟨"quote", .str s, st, "blockquote"⟩ =
      max (px_to_inches cfg 35)
        (min (px_to_inches cfg (quote_base_px s.length)) (px_to_inches cfg 250)) := by
  simp only [_calculate_element_height, contentStr, quote_base_px]
  rw [if_neg (by decide), if_neg (by decide), if_neg (by decide), if_pos (by decide)]

theorem calc_height_list (cfg : ConversionConfig) (l : List (String × StyleMap))
    (st : StyleMap) :
    _calculate_element_height cfg ⟨"list", .items l, st, "ul"⟩ =
      max (px_to_inches cfg 35)
        (min (px_to_inches cfg (45 + (l.length : ℚ) * 32)) (px_to_inches cfg 250)) := by
  simp only [_calculate_element_height, contentStr, contentLen]
  rw [if_neg (by decide), if_pos (by decide)]

theorem para_base_px_mono {a b : Nat} (h : a ≤ b) : para_base_px a ≤ para_base_px b := by
  have hmb : (2 : ℚ) ≤ ((max 2 (b / 60 + 1) : Nat) : ℚ) := by
    exact_mod_cast le_max_left 2 (b / 60 + 1)
  have hmono : ((max 2 (a / 60 + 1) : Nat) : ℚ) ≤ ((max 2 (b / 60 + 1) : Nat) : ℚ) := by
    have hn : max 2 (a / 60 + 1) ≤ max 2 (b / 60 + 1) :=
      max_le_max le_rfl (Nat.add_le_add_right (Nat.div_le_div_right h) 1)
    exact_mod_cast hn
  unfold para_base_px
  split_ifs <;>
    first
      | (exfalso; omega)
      | (push_cast at hmb hmono ⊢; linarith [hmb, hmono])

theorem quote_base_px_mono {a b : Nat} (h : a ≤ b) : quote_base_px a ≤ quote_base_px b := by
  have hmono : ((max 1 (a / 50 + 1) : Nat) : ℚ) ≤ ((max 1 (b / 50 + 1) : Nat) : ℚ) := by
    have hn : max 1 (a / 50 + 1) ≤ max 1 (b / 50 + 1) :=
      max_le_max le_rfl (Nat.add_le_add_right (Nat.div_le_div_right h) 1)
    exact_mod_cast hn
  unfold quote_base_px
  linarith [hmono]

theorem px_to_inches_mono_default {a b : ℚ} (h : a ≤ b) :
    px_to_inches defaultConfig a ≤ px_to_inches defaultConfig b := by
  unfold px_to_inches defaultConfig
  norm_num
  linarith

theorem clamp_mono_default {a b : ℚ} (h : a ≤ b) :
    max (px_to_inches defaultConfig 35) (min a (px_to_inches defaultConfig 250)) ≤
      max (px_to_inches defaultConfig 35) (min b (px_to_inches defaultConfig 250)) :=
  max_le_max le_rfl (min_le_min h le_rfl)

/-- Counterexample for C9: (a) for `code` elements the height is driven by
the newline count, not the content length — `"a\nb\nc"` (5 chars) gets a
strictly larger height than `"aaaaaaa"` (7 chars), so height is not a
non-decreasing function of content length; (b) the clamp band is one global
[35px, 250px] band, not per-kind: a 10-item list and a 20-line code block
(different kinds, different base formulas) are both capped at exactly
250px = 250/96 in. -/
theorem c9_height_not_monotone_counterexample :
    ("a\nb\nc" : String).length < ("aaaaaaa" : String).length ∧
    _calculate_element_height defaultConfig ⟨"code", .str "a\nb\nc", [], "pre"⟩ >
      _calculate_element_height defaultConfig ⟨"code", .str "aaaaaaa", [], "pre"⟩ ∧
    _calculate_element_height defaultConfig
        ⟨"list", .items [("x", []), ("x", []), ("x", []), ("x", []), ("x", []),
          ("x", []), ("x", []), ("x", []), ("x", []), ("x", [])], [], "ul"⟩ = 250 / 96 ∧
    _calculate_element_height defaultConfig
        ⟨"code",
          .str "a\na\na\na\na\na\na\na\na\na\na\na\na\na\na\na\na\na\na\na",
          [], "pre"⟩ = 250 / 96 := by
  refine ⟨by decide, ?_, ?_, ?_⟩
  · with_unfolding_all decide
  · with_unfolding_all decide
  · with_unfolding_all decide

/-- Claim C9 (amended): element heights are clamped into the single global
band [35px, 250px] shared by every element kind; the paragraph, quote and
list heights are non-decreasing in their content measure (character count,
character count, item count respectively); the height never depends on the
element's style — in particular not on its declared font size — and the
analyzer-side `_estimate_element_height` is likewise non-decreasing in text
length and item count. -/
theorem c9_height_clamped_and_monotone (e : TElem) (st1 st2 st' : StyleMap)
    (s1 s2 : String) (l1 l2 : List (String × StyleMap)) (lv : Nat)
    (hs : s1.length ≤ s2.length) (hl : l1.length ≤ l2.length) :
    (px_to_inches defaultConfig 35 ≤ _calculate_element_height defaultConfig e ∧
      _calculate_element_height defaultConfig e ≤ px_to_inches defaultConfig 250) ∧
    _calculate_element_height defaultConfig ⟨"paragraph", .str s1, st1, "p"⟩ ≤
      _calculate_element_height defaultConfig ⟨"paragraph", .str s2, st2, "p"⟩ ∧
    _calculate_element_height defaultConfig ⟨"quote", .str s1, st1, "blockquote"⟩ ≤
      _calculate_element_height defaultConfig ⟨"quote", .str s2, st2, "blockquote"⟩ ∧
    _calculate_element_height defaultConfig ⟨"list", .items l1, st1, "ul"⟩ ≤
      _calculate_element_height defaultConfig ⟨"list", .items l2, st2, "ul"⟩ ∧
    _calculate_element_height defaultConfig
        ⟨e.etype, e.content, st', e.tag⟩ = _calculate_element_height defaultConfig e ∧
    _estimate_element_height ⟨"paragraph", lv, .str s1⟩ ≤
      _estimate_element_height ⟨"paragraph", lv, .str s2⟩ ∧
    _estimate_element_height ⟨"list", lv, .items l1⟩ ≤
      _estimate_element_height ⟨"list", lv, .items l2⟩ := by
  refine ⟨⟨?_, ?_⟩, ?_, ?_, ?_, ?_, ?_, ?_⟩
  · exact le_max_left _ _
  · apply max_le
    · unfold px_to_inches defaultConfig; norm_num
    · exact min_le_right _ _
  · rw [calc_height_para, calc_height_para]
    exact clamp_mono_default (px_to_inches_mono_default (para_base_px_mono hs))
  · rw [calc_height_quote, calc_height_quote]
    exact clamp_mono_default (px_to_inches_mono_default (quote_base_px_mono hs))
  · rw [calc_height_list, calc_height_list]
    refine clamp_mono_default (px_to_inches_mono_default ?_)
    have : ((l1.length : ℚ)) ≤ (l2.length : ℚ) := by exact_mod_cast hl
    linarith
  · rfl
  · show max ((4 : ℚ) / 10) ((max 1 (s1.length / 80) : Nat) * (3 / 10) : ℚ) ≤
      max ((4 : ℚ) / 10) ((max 1 (s2.length / 80) : Nat) * (3 / 10) : ℚ)
    have hn : max 1 (s1.length / 80) ≤ max 1 (s2.length / 80) :=
      max_le_max le_rfl (Nat.div_le_div_right hs)
    have hq : ((max 1 (s1.length / 80) : Nat) : ℚ) ≤ ((max 1 (s2.length / 80) : Nat) : ℚ) := by
      exact_mod_cast hn
    refine max_le_max le_rfl ?_
    linarith
  · show max ((4 : ℚ) / 10) ((l1.length : ℚ) * (3 / 10)) ≤
      max ((4 : ℚ) / 10) ((l2.length : ℚ) * (3 / 10))
    have hq : ((l1.length : ℚ)) ≤ (l2.length : ℚ) := by exact_mod_cast hl
    refine max_le_max le_rfl ?_
    linarith

/-- Witness for the amended C9: concrete clamp bounds, and concrete
monotonicity instances for paragraph text growth and list growth. -/
theorem c9_height_clamped_and_monotone_witness :
    (px_to_inches defaultConfig 35 ≤
        _calculate_element_height defaultConfig ⟨"paragraph", .str "hi", [], "p"⟩ ∧
      _calculate_element_height defaultConfig ⟨"paragraph", .str "hi", [], "p"⟩ ≤
        px_to_inches defaultConfig 250) ∧
    _calculate_element_height defaultConfig ⟨"paragraph", .str "ab", [], "p"⟩ ≤
      _calculate_element_height defaultConfig ⟨"paragraph", .str "abcd", [], "p"⟩ ∧
    _calculate_element_height defaultConfig ⟨"quote", .str "ab", [], "blockquote"⟩ ≤
      _calculate_element_height defaultConfig ⟨"quote", .str "abcd", [], "blockquote"⟩ ∧
    _calculate_element_height defaultConfig ⟨"list", .items [("a", [])], [], "ul"⟩ ≤
      _calculate_element_height defaultConfig
        ⟨"list", .items [("a", []), ("b", [])], [], "ul"⟩ ∧
    _calculate_element_height defaultConfig
        ⟨"paragraph", .str "hi", [("font-size", "99px")], "p"⟩ =
      _calculate_element_height defaultConfig ⟨"paragraph", .str "hi", [], "p"⟩ ∧
    _estimate_element_height ⟨"paragraph", 1, .str "ab"⟩ ≤
      _estimate_element_height ⟨"paragraph", 1, .str "abcd"⟩ ∧
    _estimate_element_height ⟨"list", 1, .items [("a", [])]⟩ ≤
      _estimate_element_height ⟨"list", 1, .items [("a", []), ("b", [])]⟩ :=
  c9_height_clamped_and_monotone ⟨"paragraph", .str "hi", [], "p"⟩ []
    [] [("font-size", "99px")] "ab" "abcd" [("a", [])] [("a", []), ("b", [])] 1
    (by decide) (by decide)

/-! ## Color parsing and slide background (Claim C5)

`PPTGenerator._parse_color` and `PPTGenerator.set_slide_background`
(html2pptx.py).  A background result is the RGB triple of the solid fill the
method applies; `none` means the method returns without touching the slide
(`PRESERVE_BACKGROUND` off).
-/

def isHexDigit (c : Char) : Bool :=
  c.isDigit || (decide ('a' ≤ c) && decide (c ≤ 'f')) || (decide ('A' ≤ c) && decide (c ≤ 'F'))

/-- `re.findall(r'#[0-9a-fA-F]{6}', s)`.  Scanning character by character is
equivalent to the regex's non-overlapping scan because a later match must
start at a `#`, and the six consumed characters of a match are hex digits,
never `#`. -/
def findHexColors : List Char → List String
  | [] => []
  | c :: rest =>
    if c = '#' ∧ (rest.take 6).length = 6 ∧ (rest.take 6).all isHexDigit then
      String.mk ('#' :: rest.take 6) :: findHexColors rest
    else findHexColors rest

/-- One attempt of `rgb\s*\(\s*(\d+)\s*,\s*(\d+)\s*,\s*(\d+)\s*\)` anchored
at the current position. -/
def parseRgbAt (cs : List Char) : Option (String × String × String) :=
  match cs with
  | 'r' :: 'g' :: 'b' :: rest =>
    match rest.dropWhile isSpaceChar with
    | '(' :: rest2 =>
      let rest2 := rest2.dropWhile isSpaceChar
      let d1 := rest2.takeWhile (fun c => c.isDigit)
      let r3 := (rest2.dropWhile (fun c => c.isDigit)).dropWhile isSpaceChar
      if d1.isEmpty then none
      else
        match r3 with
        | ',' :: r4 =>
          let r4 := r4.dropWhile isSpaceChar
          let d2 := r4.takeWhile (fun c => c.isDigit)
          let r5 := (r4.dropWhile (fun c => c.isDigit)).dropWhile isSpaceChar
          if d2.isEmpty then none
          else
            match r5 with
            | ',' :: r6 =>
              let r6 := r6.dropWhile isSpaceChar
              let d3 := r6.takeWhile (fun c => c.isDigit)
              let r7 := (r6.dropWhile (fun c => c.isDigit)).dropWhile isSpaceChar
              if d3.isEmpty then none
              else
                match r7 with
                | ')' :: _ => some (⟨d1⟩, ⟨d2⟩, ⟨d3⟩)
                | _ => none
            | _ => none
        | _ => none
    | _ => none
  | _ => none

/-- `re.search` of the rgb pattern: first position where it matches. -/
def rgbSearch : List Char → Option (String × String × String)
  | [] => none
  | c :: rest =>
    match parseRgbAt (c :: rest) with
    | some g => some g
    | none => rgbSearch rest

def digitRunsAux : List Char → List Char → List String
  | [], acc => if acc.isEmpty then [] else [⟨acc.reverse⟩]
  | c :: rest, acc =>
    if c.isDigit then digitRunsAux rest (c :: acc)
    else if acc.isEmpty then digitRunsAux rest []
    else String.mk acc.reverse :: digitRunsAux rest []

/-- `re.findall(r'\d+', s)`: maximal digit runs. -/
def digitRuns (cs : List Char) : List String := digitRunsAux cs []

def hexDigitVal (c : Char) : Nat :=
  if c.isDigit then c.toNat - 48 else c.toNat - 87

/-- `int(s, 16)` on a lowercase hex string. -/
def hexByte (l : List Char) : Nat := l.foldl (fun n c => n * 16 + hexDigitVal c) 0

/-- The literal `color_map` of `_parse_color`; `'transparent'` maps to `None`
just like a missing key does under `dict.get`. -/
def color_map : List (String × Option (Nat × Nat × Nat)) :=
  [("black", some (0, 0, 0)), ("white", some (255, 255, 255)),
   ("red", some (255, 0, 0)), ("green", some (0, 128, 0)),
   ("blue", some (0, 0, 255)), ("gray", some (128, 128, 128)),
   ("grey", some (128, 128, 128)), ("silver", some (192, 192, 192)),
   ("maroon", some (128, 0, 0)), ("yellow", some (255, 255, 0)),
   ("lime", some (0, 255, 0)), ("aqua", some (0, 255, 255)),
   ("teal", some (0, 128, 128)), ("navy", some (0, 0, 128)),
   ("fuchsia", some (255, 0, 255)), ("purple", some (128, 0, 128)),
   ("orange", some (255, 165, 0)), ("pink", some (255, 192, 203)),
   ("transparent", none),
   ("#2c3e50", some (44, 62, 80)), ("#7f8c8d", some (127, 140, 141)),
   ("#34495e", some (52, 73, 94)), ("#f8f9fa", some (248, 249, 250)),
   ("#667eea", some (102, 126, 234)), ("#764ba2", some (118, 75, 162))]

def colorMapGet (s : String) : Option (Nat × Nat × Nat) :=
  match color_map.find? (fun p => p.1 = s) with
  | some p => p.2
  | none => none

/-- `PPTGenerator._parse_color`: hex (with 3-digit expansion and `#`
stripping), `rgb(...)` digit extraction, then the named-color map.
`python-pptx`'s `RGBColor` does not range-check, so the rgb branch cannot
raise on digit runs. -/
def _parse_color (color_str : String) : Option (Nat × Nat × Nat) :=
  if color_str = "" then none
  else
    let cs := pyLower (pyStrip color_str)
    if strStartsWith cs "#" then
      let hex0 := cs.data.dropWhile (fun c => c = '#')
      let hex := if hex0.length = 3 then hex0.flatMap (fun c => [c, c]) else hex0
      if hex.length = 6 then
        if hex.all isHexDigit then
          some (hexByte (hex.take 2), hexByte ((hex.drop 2).take 2), hexByte (hex.drop 4))
        else none
      else colorMapGet cs
    else if strStartsWith cs "rgb" then
      let nums := digitRuns cs.data
      match nums with
      | n1 :: n2 :: n3 :: _ => some (digitsVal n1.data, digitsVal n2.data, digitsVal n3.data)
      | _ => colorMapGet cs
    else colorMapGet cs

/-- Python truthiness of an optional string (`None` and `""` are falsy). -/
def truthy : Option String → Option String
  | none => none
  | some s => if s = "" then none else some s

/-- `PPTGenerator.set_slide_background`: pick `background-color` or
`background`, default white, reduce gradients to their first `#rrggbb` color
(else the first `rgb(...)` triple, else `#f8f9fa`), replace `url(...)` by
white, pick the color-looking part of a multi-value declaration, then apply
the parsed color — or white when unparseable — as a solid fill. -/
def set_slide_background (cfg : ConversionConfig) (style : StyleMap) :
    Option (Nat × Nat × Nat) :=
  if cfg.PRESERVE_BACKGROUND = false then none
  else
    let bg0 :=
      match truthy (dictGet style "background-color") with
      | some v => some v
      | none => truthy (dictGet style "background")
    let bg_color := bg0.getD cfg.DEFAULT_BACKGROUND_COLOR
    let bg1 :=
      if strContains bg_color "linear-gradient" || strContains bg_color "radial-gradient" then
        match findHexColors bg_color.data with
        | h :: _ => h
        | [] =>
          match rgbSearch bg_color.data with
          | some (r, g, b) => "rgb(" ++ r ++ ", " ++ g ++ ", " ++ b ++ ")"
          | none => "#f8f9fa"
      else if strContains bg_color "url(" then "#ffffff"
      else bg_color
    let bg2 :=
      if bg1 ≠ "" ∧ strContains bg1 " " then
        match (pySplitWs bg1).find? (fun part =>
          strStartsWith part "#" || strStartsWith part "rgb" ||
          decide (part ∈ ["white", "black", "red", "green", "blue", "gray",
            "grey", "lightblue", "lightgray", "darkgray", "lightgreen",
            "yellow", "orange", "purple", "pink", "brown", "navy", "teal"])) with
        | some part => part
        | none => "#ffffff"
      else bg1
    match _parse_color bg2 with
    | some c => some c
    | none => some (255, 255, 255)

theorem isInfixCL_singleton (c : Char) (l : List Char) :
    isInfixCL [c] l = l.any (fun x => c == x) := by
  induction l with
  | nil => rfl
  | cons x xs ih => simp [isInfixCL, List.isPrefixOf, ih]

theorem findHexColors_mem_shape (cs : List Char) (h : String)
    (hmem : h ∈ findHexColors cs) :
    ∃ ds, h = String.mk ('#' :: ds) ∧ ds.all isHexDigit = true ∧ ds.length = 6 := by
  induction cs with
  | nil => cases hmem
  | cons c rest ih =>
    by_cases hc : c = '#' ∧ (rest.take 6).length = 6 ∧ (rest.take 6).all isHexDigit
    · rw [findHexColors, if_pos hc] at hmem
      rcases List.mem_cons.1 hmem with heq | hmem'
      · exact ⟨rest.take 6, heq, hc.2.2, hc.2.1⟩
      · exact ih hmem'
    · rw [findHexColors, if_neg hc] at hmem
      exact ih hmem

/-- Counterexample for C5: on a slide whose background declares a linear
gradient, `set_slide_background` extracts the FIRST hex color `#111111` and
applies it as a plain solid fill — it never builds a rasterized composite
image, no picture shape is added, and no asset file is ever created (the
embedded result is the RGB triple of the solid fill). -/
theorem c5_gradient_yields_solid_fill_counterexample :
    set_slide_background defaultConfig
        [("background", "linear-gradient(135deg, #111111 0%, #eeeeee 100%)")] =
      some (17, 17, 17) ∧
    _parse_color "#111111" = some (17, 17, 17) :=
  ⟨by with_unfolding_all decide, by with_unfolding_all decide⟩

/-- Claim C5 (amended): when a slide's background declaration contains
`linear-gradient` (and the `background-color` key is absent), the background
renderer reduces it to the first `#rrggbb` color occurring in the declaration
and applies that color as the slide's SOLID background fill; no raster
composite image and no transient asset file exist anywhere in this path. -/
theorem c5_gradient_first_hex_solid_fill (cfg : ConversionConfig) (style : StyleMap)
    (bgval hexc : String) (rest : List String) (c : Nat × Nat × Nat)
    (hpres : cfg.PRESERVE_BACKGROUND = true)
    (hbgc : dictGet style "background-color" = none)
    (hbg : dictGet style "background" = some bgval)
    (hne : bgval ≠ "")
    (hgrad : strContains bgval "linear-gradient" = true)
    (hhex : findHexColors bgval.data = hexc :: rest)
    (hparse : _parse_color hexc = some c) :
    set_slide_background cfg style = some c := by
  obtain ⟨ds, hds, hall, hlen⟩ := findHexColors_mem_shape bgval.data hexc
    (by rw [hhex]; exact List.mem_cons_self _ _)
  have hnospace : strContains hexc " " = false := by
    subst hds
    show isInfixCL (" ").data (String.mk ('#' :: ds)).data = false
    rw [show (" ").data = [' '] from rfl, isInfixCL_singleton]
    simp only [List.any_cons, Bool.or_eq_false_iff]
    refine ⟨by decide, ?_⟩
    rw [List.any_eq_false]
    intro x hx hcontra
    have hxsp : (' ' : Char) = x := beq_iff_eq.1 hcontra
    subst hxsp
    have hhx := List.all_eq_true.1 hall ' ' hx
    exact absurd hhx (by decide)
  have hnonempty : hexc ≠ "" := by
    subst hds
    intro hcon
    have := congrArg String.data hcon
    simp at this
  unfold set_slide_background
  rw [if_neg (by simp [hpres])]
  simp only [hbgc, hbg, truthy, Option.getD]
  rw [if_neg hne]
  simp only [hgrad, Bool.true_or, if_true, hhex]
  rw [if_neg (by simp [hnospace])]
  simp [hparse]

/-- Witness for the amended C5: the gradient declaration from the spec's
scenario resolves to a solid `#111111` fill. -/
theorem c5_gradient_first_hex_solid_fill_witness :
    set_slide_background defaultConfig
        [("background", "linear-gradient(135deg, #111111 0%, #eeeeee 100%)")] =
      some (17, 17, 17) :=
  c5_gradient_first_hex_solid_fill defaultConfig
    [("background", "linear-gradient(135deg, #111111 0%, #eeeeee 100%)")]
    "linear-gradient(135deg, #111111 0%, #eeeeee 100%)" "#111111" ["#eeeeee"]
    (17, 17, 17) rfl rfl rfl (by decide) (by with_unfolding_all decide)
    (by with_unfolding_all decide) (by with_unfolding_all decide)

/-! ## Layout analysis and column layouts (Claim C4)

`LayoutAnalyzer.analyze_slide_layout`, `PPTGenerator._layout_two_column` and
`PPTGenerator._layout_multi_column` (html2pptx.py).  An HTML node is a tag
with name, class list, optional id, optional inline style and children, or a
text node; the analyzer only walks direct tag children.  The layout methods'
side effect — the textboxes created on the slide — is modelled as the list of
(element, bounds) pairs in creation order.
-/

inductive HTree where
  | elem (name : String) (classes : List String) (idAttr : Option String)
      (styleAttr : Option String) (children : List HTree)
  | text (s : String)

def HTree.name : HTree → String
  | .elem n _ _ _ _ => n
  | .text _ => ""

def HTree.classes : HTree → List String
  | .elem _ cl _ _ _ => cl
  | .text _ => []

def HTree.isTag : HTree → Bool
  | .elem _ _ _ _ _ => true
  | .text _ => false

/-- `[child for child in container.children if isinstance(child, Tag)]`. -/
def HTree.tagChildren : HTree → List HTree
  | .elem _ _ _ _ children => children.filter HTree.isTag
  | .text _ => []

/-- The fields of the `layout_info` dict that `analyze_slide_layout` can
modify (`elements` stays `[]` and `background` stays `None`). -/
structure LayoutInfo where
  ltype : String
  columns : Nat
  has_title : Bool
  has_subtitle : Bool
deriving DecidableEq

/-- `LayoutAnalyzer._has_flex_display`: look up the selector
`"." + " ".join(element['class'])` and compare its `display` to `flex`. -/
def _has_flex_display (element : HTree) (styles : Stylesheet) : Bool :=
  let key := "." ++ String.intercalate " " element.classes
  match findRule styles key with
  | some st =>
    match dictGet st "display" with
    | some v => v = "flex"
    | none => false
  | none => false

/-- `LayoutAnalyzer.analyze_slide_layout` (html2pptx.py): title detection over
direct children, flex-based multi-column detection, then class-keyword
overrides (`title`/`two-column`/`data` substrings). -/
def analyze_slide_layout (container : HTree) (styles : Stylesheet) : LayoutInfo :=
  let children := container.tagChildren
  let ts := children.foldl
    (fun (st : Bool × Bool) child =>
      if (pyLower child.name = "h1" ∨ pyLower child.name = "h2") ∧ st.1 = false then
        (true, if pyLower child.name = "h2" then true else st.2)
      else st)
    (false, false)
  let flex_containers := children.filter (fun c => _has_flex_display c styles)
  let tc0 : String × Nat :=
    if flex_containers.isEmpty then ("standard", 1)
    else ("multi_column", flex_containers.length)
  let tc1 := container.classes.foldl
    (fun (tc : String × Nat) class_name =>
      if strContains (pyLower class_name) "title" then ("title_slide", tc.2)
      else if strContains (pyLower class_name) "two-column" then ("two_column", 2)
      else if strContains (pyLower class_name) "data" then ("data_slide", tc.2)
      else tc)
    tc0
  ⟨tc1.1, tc1.2, ts.1, ts.2⟩

/-- Spacing constants of `PPTGenerator._get_enhanced_element_spacing`. -/
def _get_enhanced_element_spacing (cfg : ConversionConfig) (element_type tag : String) : ℚ :=
  let base_spacing := px_to_inches cfg 12
  if element_type = "heading" ∨ tag ∈ ["h1", "h2", "h3", "h4", "h5", "h6"] then
    if tag = "h1" then px_to_inches cfg 24
    else if tag = "h2" then px_to_inches cfg 20
    else px_to_inches cfg 16
  else if element_type = "list" then px_to_inches cfg 18
  else if element_type = "code" then px_to_inches cfg 20
  else if element_type = "quote" then px_to_inches cfg 16
  else if element_type = "paragraph" ∨ element_type = "text_block" then px_to_inches cfg 14
  else base_spacing

/-- A textbox bounds tuple `(left, top, width, height)` in inches. -/
abbrev Bounds := ℚ × ℚ × ℚ × ℚ

/-- The enumerate-loop of `_layout_two_column`: a leading `h1`/`h2` spans the
full width and resets both running offsets; afterwards odd indices go to the
left column and even indices to the right column, each advancing only its own
running offset. -/
def two_column_go (cfg : ConversionConfig)
    (content_left content_width col_width left_col_left right_col_left : ℚ) :
    List TElem → Nat → ℚ → ℚ → List (TElem × Bounds)
  | [], _, _, _ => []
  | e :: rest, i, left_y, right_y =>
    if (e.tag = "h1" ∨ e.tag = "h2") ∧ i = 0 then
      let h := _calculate_element_height cfg e
      let title_spacing := _get_enhanced_element_spacing cfg e.etype e.tag
      let new_y := left_y + h + title_spacing
      (e, (content_left, left_y, content_width, h)) ::
        two_column_go cfg content_left content_width col_width left_col_left
          right_col_left rest (i + 1) new_y new_y
    else if i % 2 = 1 then
      let h := _calculate_element_height cfg e
      let spacing := _get_enhanced_element_spacing cfg e.etype e.tag
      (e, (left_col_left, left_y, col_width, h)) ::
        two_column_go cfg content_left content_width col_width left_col_left
          right_col_left rest (i + 1) (left_y + h + spacing) right_y
    else
      let h := _calculate_element_height cfg e
      let spacing := _get_enhanced_element_spacing cfg e.etype e.tag
      (e, (right_col_left, right_y, col_width, h)) ::
        two_column_go cfg content_left content_width col_width left_col_left
          right_col_left rest (i + 1) left_y (right_y + h + spacing)

/-- `PPTGenerator._layout_two_column`. -/
def _layout_two_column (cfg : ConversionConfig) (text_elements : List TElem)
    (content_bounds : Bounds) : List (TElem × Bounds) :=
  let (content_left, content_top, content_width, _) := content_bounds
  let col_gap := px_to_inches cfg 30
  let col_width := (content_width - col_gap) / 2
  let left_col_left := content_left
  let right_col_left := content_left + col_width + col_gap
  two_column_go cfg content_left content_width col_width left_col_left
    right_col_left text_elements 0 content_top content_top

/-- `min(col_y_positions)` on a nonempty list. -/
def listMin : List ℚ → ℚ
  | [] => 0
  | x :: xs => xs.foldl min x

/-- `col_y_positions.index(min(col_y_positions))`: first index holding the
minimum. -/
def idxOfMin (l : List ℚ) : Nat := l.findIdx (fun x => decide (x = listMin l))

/-- The enumerate-loop of `_layout_multi_column`: a leading `h1`/`h2` spans
the full width and resets every column offset; every other element goes to
the column with the currently smallest running offset (first such column). -/
def multi_column_go (cfg : ConversionConfig)
    (content_left content_top content_width col_width : ℚ)
    (col_positions : List ℚ) :
    List TElem → Nat → List ℚ → List (TElem × Bounds)
  | [], _, _ => []
  | e :: rest, i, col_y =>
    if (e.tag = "h1" ∨ e.tag = "h2") ∧ i = 0 then
      let h := _calculate_element_height cfg e
      let title_spacing := _get_enhanced_element_spacing cfg e.etype e.tag
      let new_y := content_top + h + title_spacing
      (e, (content_left, content_top, content_width, h)) ::
        multi_column_go cfg content_left content_top content_width col_width
          col_positions rest (i + 1) (List.replicate col_y.length new_y)
    else
      let col_index := idxOfMin col_y
      let h := _calculate_element_height cfg e
      let spacing := _get_enhanced_element_spacing cfg e.etype e.tag
      (e, (col_positions.getD col_index 0, col_y.getD col_index 0, col_width, h)) ::
        multi_column_go cfg content_left content_top content_width col_width
          col_positions rest (i + 1)
          (col_y.set col_index (col_y.getD col_index 0 + h + spacing))

/-- `PPTGenerator._layout_multi_column`: column count from the element count
(≤3 → 2, ≤6 → 3, else 4), then shortest-column-first placement. -/
def _layout_multi_column (cfg : ConversionConfig) (text_elements : List TElem)
    (content_bounds : Bounds) : List (TElem × Bounds) :=
  let (content_left, content_top, content_width, _) := content_bounds
  let num_elements := text_elements.length
  let num_cols : Nat := if num_elements ≤ 3 then 2 else if num_elements ≤ 6 then 3 else 4
  let col_gap := px_to_inches cfg 24
  let col_width := (content_width - col_gap * ((num_cols : ℚ) - 1)) / (num_cols : ℚ)
  let col_positions := (List.range num_cols).map
    (fun i => content_left + (i : ℚ) * (col_width + col_gap))
  multi_column_go cfg content_left content_top content_width col_width
    col_positions text_elements 0 (List.replicate num_cols content_top)

/-- Modelled from the spec (§4.4): shortest-column-first balancing — always
append the next element to whichever column's running vertical offset is
currently smallest (the first such column on ties). -/
def shortest_column_spec (cfg : ConversionConfig) (col_positions : List ℚ)
    (col_width : ℚ) : List TElem → List ℚ → List (TElem × Bounds)
  | [], _ => []
  | e :: rest, col_y =>
    let k := idxOfMin col_y
    let h := _calculate_element_height cfg e
    (e, (col_positions.getD k 0, col_y.getD k 0, col_width, h)) ::
      shortest_column_spec cfg col_positions col_width rest
        (col_y.set k (col_y.getD k 0 + h + _get_enhanced_element_spacing cfg e.etype e.tag))

/-- Modelled from the spec (§4.4 and the C4 scenario): the claimed behavior
of a two-column slide — the code's two-column geometry (30px gap, half width
per column) with shortest-column-first assignment of every element. -/
def two_column_shortest_claim (cfg : ConversionConfig) (elements : List TElem)
    (content_bounds : Bounds) : List (TElem × Bounds) :=
  let (content_left, content_top, content_width, _) := content_bounds
  let col_gap := px_to_inches cfg 30
  let col_width := (content_width - col_gap) / 2
  shortest_column_spec cfg [content_left, content_left + col_width + col_gap]
    col_width elements [content_top, content_top]

/-- The multi-column geometry of `_layout_multi_column` with
shortest-column-first placement of every element (no title special case). -/
def multi_column_shortest_spec (cfg : ConversionConfig) (elements : List TElem)
    (content_bounds : Bounds) : List (TElem × Bounds) :=
  let (content_left, content_top, content_width, _) := content_bounds
  let num_elements := elements.length
  let num_cols : Nat := if num_elements ≤ 3 then 2 else if num_elements ≤ 6 then 3 else 4
  let col_gap := px_to_inches cfg 24
  let col_width := (content_width - col_gap * ((num_cols : ℚ) - 1)) / (num_cols : ℚ)
  let col_positions := (List.range num_cols).map
    (fun i => content_left + (i : ℚ) * (col_width + col_gap))
  shortest_column_spec cfg col_positions col_width elements
    (List.replicate num_cols content_top)

/-- The alternating assignment `_layout_two_column` actually performs on
non-title elements: odd indices to the left column, even indices to the
right column. -/
def alternate_columns_go (cfg : ConversionConfig)
    (left_col_left right_col_left col_width : ℚ) :
    List TElem → Nat → ℚ → ℚ → List (TElem × Bounds)
  | [], _, _, _ => []
  | e :: rest, i, left_y, right_y =>
    let h := _calculate_element_height cfg e
    let spacing := _get_enhanced_element_spacing cfg e.etype e.tag
    if i % 2 = 1 then
      (e, (left_col_left, left_y, col_width, h)) ::
        alternate_columns_go cfg left_col_left right_col_left col_width rest
          (i + 1) (left_y + h + spacing) right_y
    else
      (e, (right_col_left, right_y, col_width, h)) ::
        alternate_columns_go cfg left_col_left right_col_left col_width rest
          (i + 1) left_y (right_y + h + spacing)

/-- The two-column geometry with the alternating (parity) assignment. -/
def two_column_alternate_spec (cfg : ConversionConfig) (elements : List TElem)
    (content_bounds : Bounds) : List (TElem × Bounds) :=
  let (content_left, content_top, content_width, _) := content_bounds
  let col_gap := px_to_inches cfg 30
  let col_width := (content_width - col_gap) / 2
  alternate_columns_go cfg content_left (content_left + col_width + col_gap)
    col_width elements 0 content_top content_top

theorem multi_column_go_eq_spec (cfg : ConversionConfig)
    (cl ct cw colw : ℚ) (colpos : List ℚ) (elements : List TElem) (i : Nat)
    (col_y : List ℚ) (hi : i ≠ 0) :
    multi_column_go cfg cl ct cw colw colpos elements i col_y =
      shortest_column_spec cfg colpos colw elements col_y := by
  induction elements generalizing i col_y with
  | nil => rfl
  | cons e rest ih =>
    rw [multi_column_go, if_neg (fun hcon => hi hcon.2), shortest_column_spec]
    exact congrArg _ (ih (i + 1) _ (Nat.succ_ne_zero i))

theorem two_column_go_eq_alternate (cfg : ConversionConfig)
    (cl cw colw lcl rcl : ℚ) (elements : List TElem) (i : Nat)
    (left_y right_y : ℚ) (hi : i ≠ 0) :
    two_column_go cfg cl cw colw lcl rcl elements i left_y right_y =
      alternate_columns_go cfg lcl rcl colw elements i left_y right_y := by
  induction elements generalizing i left_y right_y with
  | nil => rfl
  | cons e rest ih =>
    rw [two_column_go, if_neg (fun hcon => hi hcon.2), alternate_columns_go]
    by_cases hpar : i % 2 = 1
    · rw [if_pos hpar, if_pos hpar]
      exact congrArg _ (ih (i + 1) _ _ (Nat.succ_ne_zero i))
    · rw [if_neg hpar, if_neg hpar]
      exact congrArg _ (ih (i + 1) _ _ (Nat.succ_ne_zero i))

/-- Counterexample for C4: a two-column slide does NOT use
shortest-column-first balancing.  With two paragraphs and no leading heading,
`_layout_two_column` puts the first element (index 0, even) in the RIGHT
column, while shortest-column-first on the same two-column geometry would
put it in the left column (both offsets tie and the first minimum wins). -/
theorem c4_two_column_not_shortest_first_counterexample :
    _layout_two_column defaultConfig
        [⟨"paragraph", .str "aaaaaaaaaa", [], "p"⟩, ⟨"paragraph", .str "bb", [], "p"⟩]
        (0, 0, 10, 6) ≠
      two_column_shortest_claim defaultConfig
        [⟨"paragraph", .str "aaaaaaaaaa", [], "p"⟩, ⟨"paragraph", .str "bb", [], "p"⟩]
        (0, 0, 10, 6) := by
  with_unfolding_all decide

/-- Claim C4 (amended): a container whose class list is `["two-column"]` is
classified with `columns = 2` and type `two_column`; the MULTI-column layout
assigns every element (when no leading `h1`/`h2` title is present) by
shortest-column-first balancing over its evenly divided columns; but the
TWO-column layout alternates by index parity — even indices to the right
column, odd to the left — instead of shortest-column-first. -/
theorem c4_columns_and_balancing (cfg : ConversionConfig) (container : HTree)
    (styles : Stylesheet) (elements : List TElem) (cb : Bounds)
    (hc : container.classes = ["two-column"])
    (hhead : ∀ e, elements.head? = some e → e.tag ≠ "h1" ∧ e.tag ≠ "h2") :
    (analyze_slide_layout container styles).ltype = "two_column" ∧
    (analyze_slide_layout container styles).columns = 2 ∧
    _layout_multi_column cfg elements cb = multi_column_shortest_spec cfg elements cb ∧
    _layout_two_column cfg elements cb = two_column_alternate_spec cfg elements cb := by
  have hana : (analyze_slide_layout container styles).ltype = "two_column" ∧
      (analyze_slide_layout container styles).columns = 2 := by
    simp only [analyze_slide_layout, hc, List.foldl_cons, List.foldl_nil]
    rw [if_neg (by decide), if_pos (by decide)]
    exact ⟨rfl, rfl⟩
  refine ⟨hana.1, hana.2, ?_, ?_⟩
  · obtain ⟨l, t, w, hh⟩ := cb
    cases elements with
    | nil => rfl
    | cons e rest =>
      have he := hhead e rfl
      show multi_column_go _ _ _ _ _ _ (e :: rest) 0 _ = shortest_column_spec _ _ _ (e :: rest) _
      rw [multi_column_go,
        if_neg (fun hcon => hcon.1.elim (fun h1 => he.1 h1) (fun h2 => he.2 h2)),
        shortest_column_spec]
      exact congrArg _ (multi_column_go_eq_spec cfg l t w _ _ rest 1 _ one_ne_zero)
  · obtain ⟨l, t, w, hh⟩ := cb
    cases elements with
    | nil => rfl
    | cons e rest =>
      have he := hhead e rfl
      show two_column_go _ _ _ _ _ _ (e :: rest) 0 _ _ = alternate_columns_go _ _ _ _ (e :: rest) 0 _ _
      rw [two_column_go,
        if_neg (fun hcon => hcon.1.elim (fun h1 => he.1 h1) (fun h2 => he.2 h2)),
        alternate_columns_go, if_neg (by decide), if_neg (by decide)]
      exact congrArg _ (two_column_go_eq_alternate cfg l w _ _ _ rest 1 _ _ one_ne_zero)

/-- Witness for the amended C4: a concrete `"two-column"` container with four
paragraph children classifies to two columns, and the concrete layouts agree
with their characterizations. -/
theorem c4_columns_and_balancing_witness :
    (analyze_slide_layout
        (.elem "div" ["two-column"] none none
          [.elem "p" [] none none [.text "a"], .elem "p" [] none none [.text "b"],
           .elem "p" [] none none [.text "c"], .elem "p" [] none none [.text "d"]])
        []).ltype = "two_column" ∧
    (analyze_slide_layout
        (.elem "div" ["two-column"] none none
          [.elem "p" [] none none [.text "a"], .elem "p" [] none none [.text "b"],
           .elem "p" [] none none [.text "c"], .elem "p" [] none none [.text "d"]])
        []).columns = 2 ∧
    _layout_multi_column defaultConfig
        [⟨"paragraph", .str "aaaaaaaaaa", [], "p"⟩, ⟨"paragraph", .str "bb", [], "p"⟩]
        (0, 0, 10, 6) =
      multi_column_shortest_spec defaultConfig
        [⟨"paragraph", .str "aaaaaaaaaa", [], "p"⟩, ⟨"paragraph", .str "bb", [], "p"⟩]
        (0, 0, 10, 6) ∧
    _layout_two_column defaultConfig
        [⟨"paragraph", .str "aaaaaaaaaa", [], "p"⟩, ⟨"paragraph", .str "bb", [], "p"⟩]
        (0, 0, 10, 6) =
      two_column_alternate_spec defaultConfig
        [⟨"paragraph", .str "aaaaaaaaaa", [], "p"⟩, ⟨"paragraph", .str "bb", [], "p"⟩]
        (0, 0, 10, 6) :=
  c4_columns_and_balancing defaultConfig
    (.elem "div" ["two-column"] none none
      [.elem "p" [] none none [.text "a"], .elem "p" [] none none [.text "b"],
       .elem "p" [] none none [.text "c"], .elem "p" [] none none [.text "d"]])
    []
    [⟨"paragraph", .str "aaaaaaaaaa", [], "p"⟩, ⟨"paragraph", .str "bb", [], "p"⟩]
    (0, 0, 10, 6) rfl
    (by intro e h; cases h; exact ⟨by decide, by decide⟩)

/-! ## Standard layout and overflow handling (Claim C8)

`PPTGenerator._parse_css_spacing`, `_parse_margin_shorthand`,
`_calculate_element_layout` and `_layout_standard` (html2pptx.py).  The side
effect — textboxes created on the slide — is the returned (element, bounds)
list; the Python method itself falls off the end, returning `None`.
-/

/-- `PPTGenerator._parse_css_spacing`: first whitespace-separated part,
parsed as a length and converted px → inches. -/
def _parse_css_spacing (cfg : ConversionConfig) (value : String) : ℚ :=
  if value = "" ∨ value = "0" then 0
  else
    match pySplitWs value with
    | [] => 0
    | first_value :: _ => px_to_inches cfg (_parse_length (.str first_value) 16)

/-- `PPTGenerator._parse_margin_shorthand`: (top, right, bottom, left). -/
def _parse_margin_shorthand (cfg : ConversionConfig) (margin : String) :
    ℚ × ℚ × ℚ × ℚ :=
  match pySplitWs margin with
  | [a] =>
    let v := _parse_css_spacing cfg a
    (v, v, v, v)
  | [a, b] =>
    let vertical := _parse_css_spacing cfg a
    let horizontal := _parse_css_spacing cfg b
    (vertical, horizontal, vertical, horizontal)
  | [a, b, c, d] =>
    (_parse_css_spacing cfg a, _parse_css_spacing cfg b,
     _parse_css_spacing cfg c, _parse_css_spacing cfg d)
  | _ => (0, 0, 0, 0)

structure ElementLayout where
  left : ℚ
  top : ℚ
  width : ℚ
  height : ℚ
  margin_bottom : ℚ
  padding : ℚ
deriving DecidableEq

/-- `PPTGenerator._calculate_element_layout`: margins (with shorthand
fallback), padding, per-kind width/indent adjustments, minimum width,
right-boundary clamp. -/
def _calculate_element_layout (cfg : ConversionConfig) (element : TElem)
    (content_bounds : Bounds) (current_y : ℚ) : ElementLayout :=
  let (content_left, _content_top, content_width, _content_height) := content_bounds
  let style := element.style
  let element_type := element.etype
  let tag := element.tag
  let margin_top := _parse_css_spacing cfg ((dictGet style "margin-top").getD "0")
  let margin_bottom := _parse_css_spacing cfg ((dictGet style "margin-bottom").getD "0")
  let margin_left := _parse_css_spacing cfg ((dictGet style "margin-left").getD "0")
  let margin_right := _parse_css_spacing cfg ((dictGet style "margin-right").getD "0")
  let useShorthand := (dictGet style "margin").isSome ∧
    margin_top = 0 ∧ margin_bottom = 0 ∧ margin_left = 0 ∧ margin_right = 0
  let margins :=
    if useShorthand then
      _parse_margin_shorthand cfg ((dictGet style "margin").getD "")
    else (margin_top, margin_right, margin_bottom, margin_left)
  let margin_top := margins.1
  let margin_right := margins.2.1
  let margin_bottom := margins.2.2.1
  let margin_left := margins.2.2.2
  let padding := _parse_css_spacing cfg ((dictGet style "padding").getD "4")
  let base_height := _calculate_element_height cfg element
  let available_width := content_width - margin_left - margin_right
  let element_left := content_left + margin_left
  let lw :=
    if element_type = "heading" ∨ tag ∈ ["h1", "h2", "h3", "h4", "h5", "h6"] then
      (element_left, available_width)
    else if element_type = "list" then
      let list_indent := px_to_inches cfg 24
      (element_left + list_indent, available_width - list_indent)
    else if element_type = "code" then
      let code_margin := px_to_inches cfg 8
      (element_left + code_margin, available_width - code_margin * 2)
    else if element_type = "quote" then
      let quote_indent := px_to_inches cfg 32
      (element_left + quote_indent, available_width - quote_indent * 2)
    else if element_type = "paragraph" ∨ element_type = "text_block" then
      let text_align := (dictGet style "text-align").getD "left"
      if text_align = "center" then
        let center_margin := px_to_inches cfg 16
        (element_left + center_margin, available_width - center_margin * 2)
      else if text_align = "right" then
        let right_margin := px_to_inches cfg 16
        (element_left, available_width - right_margin)
      else (element_left, available_width)
    else (element_left, available_width)
  let element_left := lw.1
  let element_width := lw.2
  let min_width := px_to_inches cfg 100
  let element_width := max element_width min_width
  let element_width :=
    if element_left + element_width > content_left + content_width then
      content_left + content_width - element_left
    else element_width
  ⟨element_left, current_y + margin_top, element_width, base_height,
    margin_bottom, padding⟩

/-- The per-element loop of `_layout_standard`: place, clip to the remaining
height when the box would cross the content bottom and the remainder is at
least `MIN_ELEMENT_HEIGHT`, otherwise stop (`break`) and drop every remaining
element; after each placement advance by height + margin-bottom + per-kind
spacing.  (The `try/except` around textbox creation cannot fire in this
model.) -/
def layout_standard_go (cfg : ConversionConfig) (content_bounds : Bounds) :
    List TElem → ℚ → List (TElem × Bounds)
  | [], _ => []
  | e :: rest, current_y =>
    let (_content_left, content_top, _content_width, content_height) := content_bounds
    let lay := _calculate_element_layout cfg e content_bounds current_y
    if lay.top + lay.height > content_top + content_height then
      let remaining_height := content_top + content_height - lay.top
      if remaining_height < cfg.MIN_ELEMENT_HEIGHT then []
      else
        (e, (lay.left, lay.top, lay.width, remaining_height)) ::
          layout_standard_go cfg content_bounds rest
            (lay.top + remaining_height + lay.margin_bottom +
              _get_enhanced_element_spacing cfg e.etype e.tag)
    else
      (e, (lay.left, lay.top, lay.width, lay.height)) ::
        layout_standard_go cfg content_bounds rest
          (lay.top + lay.height + lay.margin_bottom +
            _get_enhanced_element_spacing cfg e.etype e.tag)

/-- `PPTGenerator._layout_standard` (its effect on the slide). -/
def _layout_standard (cfg : ConversionConfig) (text_elements : List TElem)
    (content_bounds : Bounds) : List (TElem × Bounds) :=
  layout_standard_go cfg content_bounds text_elements content_bounds.2.1

/-- The Python method's return value: `_layout_standard` contains no `return`
statement, so every caller receives `None` — in particular no count of
dropped elements is ever returned. -/
def _layout_standard_return_value (cfg : ConversionConfig)
    (text_elements : List TElem) (content_bounds : Bounds) : Option Nat :=
  none

/-- Counterexample for C8: with a 0.5-inch-tall content area and three short
paragraphs, only the first element is placed (the second would start below
the content bottom and the remainder is under `MIN_ELEMENT_HEIGHT`, so the
loop breaks and drops two elements) — yet the method returns `None`: no
count of dropped elements is observable in its return value. -/
theorem c8_no_dropped_count_counterexample :
    _layout_standard_return_value defaultConfig
        [⟨"paragraph", .str "aaaaaaaaaa", [], "p"⟩,
         ⟨"paragraph", .str "bbbbbbbbbb", [], "p"⟩,
         ⟨"paragraph", .str "cccccccccc", [], "p"⟩] (0, 0, 5, 1 / 2) = none ∧
    (_layout_standard defaultConfig
        [⟨"paragraph", .str "aaaaaaaaaa", [], "p"⟩,
         ⟨"paragraph", .str "bbbbbbbbbb", [], "p"⟩,
         ⟨"paragraph", .str "cccccccccc", [], "p"⟩] (0, 0, 5, 1 / 2)).length = 1 ∧
    ([⟨"paragraph", .str "aaaaaaaaaa", [], "p"⟩,
      ⟨"paragraph", .str "bbbbbbbbbb", [], "p"⟩,
      ⟨"paragraph", .str "cccccccccc", [], "p"⟩] : List TElem).length = 3 :=
  ⟨rfl, by with_unfolding_all decide, rfl⟩

theorem layout_standard_go_bottom (cfg : ConversionConfig) (l t w h : ℚ)
    (elements : List TElem) (y : ℚ) :
    (∀ p ∈ layout_standard_go cfg (l, t, w, h) elements y,
      p.2.2.1 + p.2.2.2.2 ≤ t + h) ∧
    (layout_standard_go cfg (l, t, w, h) elements y).length ≤ elements.length := by
  induction elements generalizing y with
  | nil => exact ⟨fun p hp => absurd hp (List.not_mem_nil p), le_rfl⟩
  | cons e rest ih =>
    simp only [layout_standard_go]
    split_ifs with hov hrem
    · exact ⟨fun p hp => absurd hp (List.not_mem_nil p), by simp⟩
    · constructor
      · intro p hp
        rcases List.mem_cons.1 hp with hhead | htail
        · subst hhead
          simp only
          linarith
        · exact (ih _).1 p htail
      · simpa using Nat.succ_le_succ (ih _).2
    · constructor
      · intro p hp
        rcases List.mem_cons.1 hp with hhead | htail
        · subst hhead
          simp only
          linarith
        · exact (ih _).1 p htail
      · simpa using Nat.succ_le_succ (ih _).2

/-- Claim C8 (amended): layout overflow is recovered without failure — every
box the standard layout emits ends at or above the content-area bottom (an
overflowing element is clipped to the remaining height when that remainder is
at least `MIN_ELEMENT_HEIGHT`, and otherwise it and all remaining elements
are dropped, never moved to a new slide), and at most the input number of
boxes is emitted — but the method returns `None`: the number of dropped
elements is NOT returned to the caller; content loss is observable only as
missing shapes. -/
theorem c8_overflow_clips_or_drops (cfg : ConversionConfig) (elements : List TElem)
    (l t w h : ℚ) :
    (∀ p ∈ _layout_standard cfg elements (l, t, w, h),
      p.2.2.1 + p.2.2.2.2 ≤ t + h) ∧
    (_layout_standard cfg elements (l, t, w, h)).length ≤ elements.length ∧
    _layout_standard_return_value cfg elements (l, t, w, h) = none := by
  have hgo := layout_standard_go_bottom cfg l t w h elements t
  exact ⟨hgo.1, hgo.2, rfl⟩

/-- Witness for the amended C8: concrete instance of the emitted-box bound
and the `None` return value. -/
theorem c8_overflow_clips_or_drops_witness :
    (∀ p ∈ _layout_standard defaultConfig [⟨"paragraph", .str "hello", [], "p"⟩]
        (0, 0, 5, 3), p.2.2.1 + p.2.2.2.2 ≤ 0 + 3) ∧
    (_layout_standard defaultConfig [⟨"paragraph", .str "hello", [], "p"⟩]
        (0, 0, 5, 3)).length ≤ 1 ∧
    _layout_standard_return_value defaultConfig [⟨"paragraph", .str "hello", [], "p"⟩]
        (0, 0, 5, 3) = none :=
  c8_overflow_clips_or_drops defaultConfig [⟨"paragraph", .str "hello", [], "p"⟩] 0 0 5 3

/-! ## Document extraction and whole-document conversion (Claim C10)

`TextProcessor._get_element_style`, `TextProcessor.extract_all_text_elements`,
`PPTGenerator.calculate_layout_bounds`, `_layout_title_slide`,
`_layout_elements`, `_process_slide` and `PPTGenerator.convert`
(html2pptx.py).  HTML parsing and CSS-file loading are external
(BeautifulSoup / cssutils), so `convert` receives the parsed tree and the
already-collected stylesheet; saving the file is the external side effect
after the returned deck.
-/

mutual
/-- BeautifulSoup `element.get_text()`: concatenation of all descendant
strings. -/
def HTree.getText : HTree → String
  | .text s => s
  | .elem _ _ _ _ children => getTextList children

def getTextList : List HTree → String
  | [] => ""
  | c :: rest => c.getText ++ getTextList rest
end

/-- `TextProcessor._get_direct_text_content`: direct text children, stripped,
non-empty, joined by single spaces. -/
def _get_direct_text_content (element : HTree) : String :=
  match element with
  | .text _ => ""
  | .elem _ _ _ _ children =>
    String.intercalate " "
      (children.filterMap (fun c =>
        match c with
        | .text s =>
          let t := pyStrip s
          if t = "" then none else some t
        | .elem _ _ _ _ _ => none))

/-- `HtmlElement` view of a tag node (the attributes the resolvers read). -/
def HTree.toHtmlElement : HTree → HtmlElement
  | .elem n cl i st _ => ⟨n, cl, i, st⟩
  | .text _ => ⟨"", [], none, none⟩

/-- `TextProcessor._get_element_style` (html2pptx.py): tag, `.cls` and
`tag.cls`, `#id`, then inline declarations, via direct dict lookups. -/
def _get_element_style (element : HTree) (styles : Stylesheet) : StyleMap :=
  match element with
  | .text _ => []
  | .elem name classes idAttr styleAttr _ =>
    let tag_name := pyLower name
    let computed : StyleMap :=
      match findRule styles tag_name with
      | some st => dictUpdate [] st
      | none => []
    let computed := classes.foldl
      (fun acc class_name =>
        let acc :=
          match findRule styles ("." ++ class_name) with
          | some st => dictUpdate acc st
          | none => acc
        match findRule styles (tag_name ++ "." ++ class_name) with
        | some st => dictUpdate acc st
        | none => acc)
      computed
    let computed :=
      match idAttr with
      | some i =>
        match findRule styles ("#" ++ i) with
        | some st => dictUpdate computed st
        | none => computed
      | none => computed
    match styleAttr with
    | some s => dictUpdate computed (_parse_inline_style s)
    | none => computed

mutual
/-- `TextProcessor.extract_all_text_elements`'s inner `_extract_structured`:
typed extraction in document order.  `parent_name` is the DOM parent's tag
name (read only by the inline-element branch). -/
def _extract_structured (styles : Stylesheet) (parent_name : String)
    (element : HTree) (parent_style : Option StyleMap) : List TElem :=
  match element with
  | .text _ => []
  | .elem name classes idAttr styleAttr children =>
    let this := HTree.elem name classes idAttr styleAttr children
    let tag_name := pyLower name
    let own_style := _get_element_style this styles
    let element_style :=
      match parent_style with
      | some ps => dictUpdate ps own_style
      | none => own_style
    if tag_name ∈ ["h1", "h2", "h3", "h4", "h5", "h6"] then
      let full_text := pyStrip this.getText
      if full_text ≠ "" then [⟨"heading", .str full_text, element_style, tag_name⟩]
      else []
    else if tag_name = "p" then
      let full_text := pyStrip this.getText
      if full_text ≠ "" then [⟨"paragraph", .str full_text, element_style, tag_name⟩]
      else []
    else if tag_name = "ul" ∨ tag_name = "ol" then
      let list_items := (children.filter (fun c => c.name = "li")).filterMap
        (fun li =>
          let li_text := pyStrip li.getText
          if li_text = "" then none
          else some (li_text, dictUpdate element_style (_get_element_style li styles)))
      if list_items ≠ [] then [⟨"list", .items list_items, element_style, tag_name⟩]
      else []
    else if tag_name = "blockquote" then
      let quote_text := pyStrip this.getText
      if quote_text ≠ "" then [⟨"quote", .str quote_text, element_style, tag_name⟩]
      else []
    else if tag_name = "pre" then
      let code_text := pyStrip this.getText
      if code_text ≠ "" then [⟨"code", .str code_text, element_style, tag_name⟩]
      else []
    else if tag_name ∈ ["div", "section", "article"] then
      let direct_text := _get_direct_text_content this
      let has_block_children := (children.filter HTree.isTag).any
        (fun c => c.name ∈ ["h1", "h2", "h3", "h4", "h5", "h6", "p", "ul", "ol",
          "blockquote", "pre", "div"])
      if direct_text ≠ "" ∧ has_block_children = false then
        [⟨"text_block", .str direct_text, element_style, tag_name⟩]
      else extractChildren styles name children element_style
    else if tag_name ∈ ["span", "strong", "em", "b", "i"] then
      let parent_tag := pyLower parent_name
      if parent_tag ∉ ["p", "h1", "h2", "h3", "h4", "h5", "h6", "li", "blockquote"] then
        let full_text := pyStrip this.getText
        if full_text ≠ "" then [⟨"inline_text", .str full_text, element_style, tag_name⟩]
        else []
      else []
    else extractChildren styles name children element_style

/-- `for child in element.children: if isinstance(child, Tag):
_extract_structured(child, element_style)`. -/
def extractChildren (styles : Stylesheet) (parent_name : String) :
    List HTree → StyleMap → List TElem
  | [], _ => []
  | c :: rest, ps =>
    (if c.isTag then _extract_structured styles parent_name c (some ps) else []) ++
      extractChildren styles parent_name rest ps
end

/-- `TextProcessor.extract_all_text_elements`: start at the container with no
parent style (the container's own DOM parent is outside the subtree and
irrelevant to its block-element branch). -/
def extract_all_text_elements (container : HTree) (styles : Stylesheet) : List TElem :=
  _extract_structured styles "" container none

/-- `PPTGenerator.calculate_layout_bounds`: padding shorthand over the slide
canvas (`"60"` is `str(DEFAULT_PADDING)` under the shipped configuration). -/
def calculate_layout_bounds (cfg : ConversionConfig) (slide_style : StyleMap)
    (layout_info : LayoutInfo) : Bounds :=
  let padding := (dictGet slide_style "padding").getD "60"
  let padding_parts := pySplitWs padding
  let ps : ℚ × ℚ × ℚ × ℚ :=
    match padding_parts with
    | [a] =>
      let v := px_to_inches cfg (_parse_length (.str a) 16)
      (v, v, v, v)
    | [a, b] =>
      let vv := px_to_inches cfg (_parse_length (.str a) 16)
      let hh := px_to_inches cfg (_parse_length (.str b) 16)
      (vv, hh, vv, hh)
    | [a, b, c, d] =>
      (px_to_inches cfg (_parse_length (.str a) 16),
       px_to_inches cfg (_parse_length (.str b) 16),
       px_to_inches cfg (_parse_length (.str c) 16),
       px_to_inches cfg (_parse_length (.str d) 16))
    | _ =>
      let v := px_to_inches cfg cfg.DEFAULT_PADDING
      (v, v, v, v)
  let p_top := ps.1
  let p_right := ps.2.1
  let p_bottom := ps.2.2.1
  let p_left := ps.2.2.2
  (p_left, p_top, cfg.SLIDE_WIDTH_INCHES - p_left - p_right,
    cfg.SLIDE_HEIGHT_INCHES - p_top - p_bottom)

def title_slide_go (cfg : ConversionConfig) (content_left content_width : ℚ) :
    List TElem → ℚ → List (TElem × Bounds)
  | [], _ => []
  | e :: rest, current_y =>
    let element_width := content_width * (9 / 10)
    let element_left := content_left + (content_width - element_width) / 2
    let element_height := _calculate_element_height cfg e
    (e, (element_left, current_y, element_width, element_height)) ::
      title_slide_go cfg content_left content_width rest
        (current_y + element_height + px_to_inches cfg 20)

/-- `PPTGenerator._layout_title_slide`: vertically centered, 90%-width
centered elements with 20px spacing. -/
def _layout_title_slide (cfg : ConversionConfig) (text_elements : List TElem)
    (content_bounds : Bounds) : List (TElem × Bounds) :=
  let (content_left, content_top, content_width, content_height) := content_bounds
  let total_height := (text_elements.map (fun e => _calculate_element_height cfg e)).sum
  let total_spacing := (text_elements.length : ℚ) * px_to_inches cfg 20
  let start_y := content_top + (content_height - total_height - total_spacing) / 2
  title_slide_go cfg content_left content_width text_elements (max start_y content_top)

/-- `PPTGenerator._layout_elements`: dispatch on the classified layout type. -/
def _layout_elements (cfg : ConversionConfig) (text_elements : List TElem)
    (content_bounds : Bounds) (layout_info : LayoutInfo) : List (TElem × Bounds) :=
  if layout_info.ltype = "title_slide" then
    _layout_title_slide cfg text_elements content_bounds
  else if layout_info.ltype = "two_column" then
    _layout_two_column cfg text_elements content_bounds
  else if layout_info.ltype = "multi_column" then
    _layout_multi_column cfg text_elements content_bounds
  else
    _layout_standard cfg text_elements content_bounds

/-- One produced slide: its background fill and its shapes in creation
order. -/
structure SlideOut where
  background : Option (Nat × Nat × Nat)
  shapes : List (TElem × Bounds)

/-- `PPTGenerator._process_slide`. -/
def _process_slide (cfg : ConversionConfig) (container : HTree)
    (all_styles : Stylesheet) : SlideOut :=
  let container_style := compute_element_style container.toHtmlElement all_styles
  let bg := set_slide_background cfg container_style
  let layout_info := analyze_slide_layout container all_styles
  let content_bounds := calculate_layout_bounds cfg container_style layout_info
  let text_elements := extract_all_text_elements container all_styles
  ⟨bg, _layout_elements cfg text_elements content_bounds layout_info⟩

mutual
/-- `soup.select('.slide-container')`: every element whose class list
contains the class, in document (pre-)order. -/
def selectByClass (cls : String) : HTree → List HTree
  | .text _ => []
  | .elem n cl i st children =>
    (if cls ∈ cl then [HTree.elem n cl i st children] else []) ++
      selectByClassList cls children

def selectByClassList (cls : String) : List HTree → List HTree
  | [] => []
  | c :: rest => selectByClass cls c ++ selectByClassList cls rest
end

/-- `PPTGenerator.convert` after the external HTML/CSS parsing: find the
slide containers; if none exist raise `ValueError` (before the `Presentation`
is created and before anything is saved); otherwise produce one slide per
container in document order (saving the file is the caller-visible side
effect after the deck is returned). -/
def convert (cfg : ConversionConfig) (soup : HTree) (all_styles : Stylesheet) :
    Except String (List SlideOut) :=
  let slide_containers := selectByClass "slide-container" soup
  if slide_containers.isEmpty then
    .error "未找到 .slide-container 元素"
  else
    .ok (slide_containers.map (fun c => _process_slide cfg c all_styles))

/-- Claim C10: when the document holds no element with class
`slide-container`, `convert` fails with the `ValueError` before any slide is
produced or any file written (the error is returned instead of a deck); when
containers exist, one slide per container is produced in document order. -/
theorem c10_convert_error_without_slide_container (cfg : ConversionConfig)
    (soup : HTree) (all_styles : Stylesheet) :
    (selectByClass "slide-container" soup = [] →
      convert cfg soup all_styles = .error "未找到 .slide-container 元素") ∧
    (∀ c cs, selectByClass "slide-container" soup = c :: cs →
      convert cfg soup all_styles =
        .ok ((c :: cs).map (fun k => _process_slide cfg k all_styles))) := by
  constructor
  · intro h
    unfold convert
    rw [h]
    rfl
  · intro c cs h
    unfold convert
    rw [h]
    rfl

/-- Witness for C10: a concrete document without any `slide-container` makes
`convert` return the error, and adding one container yields a one-slide
deck. -/
theorem c10_convert_error_without_slide_container_witness :
    convert defaultConfig
        (.elem "html" [] none none
          [.elem "body" [] none none
            [.elem "div" ["content"] none none [.text "x"]]]) [] =
      .error "未找到 .slide-container 元素" ∧
    convert defaultConfig
        (.elem "html" [] none none
          [.elem "body" [] none none
            [.elem "div" ["slide-container"] none none []]]) [] =
      .ok [_process_slide defaultConfig (.elem "div" ["slide-container"] none none []) []] := by
  constructor
  · exact (c10_convert_error_without_slide_container defaultConfig _ []).1
      (by simp [selectByClass, selectByClassList])
  · exact (c10_convert_error_without_slide_container defaultConfig _ []).2
      (.elem "div" ["slide-container"] none none []) []
      (by simp [selectByClass, selectByClassList])
